import Mathlib

set_option maxRecDepth 16000

/-!
# Verification of the `computer_forensic` artifact-extraction engine

A shallow embedding, in Lean 4, of the byte-level artifact parsers and the
extraction orchestrator found under `src/extraction/` of the repository:

* `recycle_bin.py`     — INFO2 and Vista+ (`$I`/`$R`) recycle-bin parsing
* `event_logs.py`      — legacy `.evt` event-log parsing
* `filesystem_artifacts.py` — Prefetch, LNK and jump-list parsing
* `browser_artifacts.py`    — browser stores and IE `index.dat` parsing
* `registry_artifacts.py`   — registry-hive artifact extraction
* `forensic_extractor.py`   — the orchestrator

Conventions of the embedding:

* Python `bytes` values are `List Nat` (each element < 256 in well-formed
  data); Python slices clamp at the ends exactly as `List.take`/`List.drop` do.
* `struct.unpack` on a too-short slice raises in Python; the embedding
  returns `Option`/`Except` accordingly at each call site, mirroring which
  `try/except` block would catch the exception.
* Python dicts are association lists in insertion order (`Dict` below);
  assignment replaces an existing key in place or appends a new one, exactly
  like CPython.
* `datetime.fromtimestamp` is modelled for a 64-bit glibc platform with
  `TZ=UTC` (the accepted range, measured on CPython, is unix seconds in
  [-62135510400, 253402300799], i.e. 0001-01-02 .. 9999-12-31; negative
  timestamps succeed).
  Python computes the seconds value with float division; the embedding uses
  exact integer arithmetic, which agrees on the integral second for all
  inputs whose float rounding does not cross a second boundary, and in
  particular on every property stated below (which are at whole-second /
  null-vs-non-null granularity).
-/

namespace CF

/-! ## Python bytes primitives -/

/-- A Python `bytes` value: a list of byte values. -/
abbrev Bytes := List Nat

/-- Python slice `d[a:b]` (clamping, never raising). -/
def pyslice (d : Bytes) (a b : Nat) : Bytes := (d.take b).drop a

/-- Little-endian value of a byte string. -/
def leNat (bs : Bytes) : Nat := bs.foldr (fun b acc => b + 256 * acc) 0

/-- `struct.unpack` of a `w`-byte little-endian unsigned integer at `off`:
Python raises unless the slice has exactly `w` bytes. -/
def unpackLE (w : Nat) (d : Bytes) (off : Nat) : Option Nat :=
  if off + w ≤ d.length then some (leNat (pyslice d off (off + w))) else none

/-- Python `d.find(pat, start, stop)` (smallest match index, `none` for -1). -/
def pyFind (d pat : Bytes) (start stop : Nat) : Option Nat :=
  let e := min stop d.length
  (List.range (e + 1)).find? fun i =>
    decide (start ≤ i) && decide (i + pat.length ≤ e) && (pyslice d i (i + pat.length) == pat)

/-! ## Text decoding -/

/-- Pair up bytes into little-endian 16-bit units, dropping a trailing odd
byte (the `errors='ignore'` behaviour). -/
def toU16sIgnore : Bytes → List Nat
  | b0 :: b1 :: rest => (b0 + 256 * b1) :: toU16sIgnore rest
  | _ => []

/-- Pair up bytes into 16-bit units; odd length is a decode error. -/
def toU16sStrict : Bytes → Option (List Nat)
  | [] => some []
  | b0 :: b1 :: rest => (toU16sStrict rest).map ((b0 + 256 * b1) :: ·)
  | _ => none

def isHighSurrogate (u : Nat) : Bool := decide (0xD800 ≤ u) && decide (u ≤ 0xDBFF)
def isLowSurrogate (u : Nat) : Bool := decide (0xDC00 ≤ u) && decide (u ≤ 0xDFFF)

/-- Combine UTF-16 code units into code points; a lone surrogate is a
decode error (CPython strict mode). -/
def combineUtf16Strict : List Nat → Option (List Nat)
  | [] => some []
  | [u] => if isHighSurrogate u || isLowSurrogate u then none else some [u]
  | u :: v :: rest =>
    if isHighSurrogate u then
      if isLowSurrogate v then
        (combineUtf16Strict rest).map ((0x10000 + (u - 0xD800) * 0x400 + (v - 0xDC00)) :: ·)
      else none
    else if isLowSurrogate u then none
    else (combineUtf16Strict (v :: rest)).map (u :: ·)

/-- Combine UTF-16 code units into code points; a lone surrogate is dropped
(CPython `errors='ignore'`). -/
def combineUtf16Ignore : List Nat → List Nat
  | [] => []
  | [u] => if isHighSurrogate u || isLowSurrogate u then [] else [u]
  | u :: v :: rest =>
    if isHighSurrogate u then
      if isLowSurrogate v then
        (0x10000 + (u - 0xD800) * 0x400 + (v - 0xDC00)) :: combineUtf16Ignore rest
      else combineUtf16Ignore (v :: rest)
    else if isLowSurrogate u then combineUtf16Ignore (v :: rest)
    else u :: combineUtf16Ignore (v :: rest)

/-- Python `b.decode('utf-16le')` (strict). -/
def decodeUtf16leStrict (b : Bytes) : Option String := do
  let us ← toU16sStrict b
  let cps ← combineUtf16Strict us
  return String.mk (cps.map Char.ofNat)

/-- Python `b.decode('utf-16le', errors='ignore')`. -/
def decodeUtf16leIgnore (b : Bytes) : String :=
  String.mk ((combineUtf16Ignore (toU16sIgnore b)).map Char.ofNat)

/-- Python `b.decode('ascii', errors='ignore')`. -/
def decodeAsciiIgnore (b : Bytes) : String :=
  String.mk ((b.filter (fun x => decide (x < 128))).map Char.ofNat)

/-- Python `s.rstrip('\x00')`. -/
def rstripNulls (s : String) : String :=
  String.mk ((s.data.reverse.dropWhile (fun c => c == Char.ofNat 0)).reverse)

/-! ## Python values and dicts -/

/-- A Python value as it appears in artifact records. -/
inductive PV where
  | null
  | s (v : String)
  | n (v : Int)
  | b (v : Bool)
  | bytes (bs : Bytes)
  | list (vs : List PV)
  | dict (kvs : List (String × PV))

/-- A Python dict: an association list in insertion order. -/
abbrev Dict := List (String × PV)

/-- CPython dict assignment: replace in place, else append. -/
def dictSet (d : Dict) (k : String) (v : PV) : Dict :=
  if d.any (fun kv => kv.1 == k) then
    d.map (fun kv => if kv.1 == k then (k, v) else kv)
  else d ++ [(k, v)]

/-- Python `d[k]` / `d.get(k)` as an `Option`. -/
def dictGet (d : Dict) (k : String) : Option PV := List.lookup k d

/-- The keys of a dict, in order. -/
def dictKeys (d : Dict) : List String := d.map Prod.fst

/-- Python truthiness of a value. -/
def pvTruthy : PV → Bool
  | .null => false
  | .s v => !v.data.isEmpty
  | .n v => v != 0
  | .b v => v
  | .bytes bs => !bs.isEmpty
  | .list vs => !vs.isEmpty
  | .dict kvs => !kvs.isEmpty

/-- Python `len` for list-valued dict entries (0 for anything else),
as used by the orchestrator's summary block. -/
def pvLen : Option PV → Nat
  | some (.list vs) => vs.length
  | _ => 0

/-! ## `datetime` model (TZ=UTC, 64-bit platform) -/

/-- A `datetime.datetime` as unix seconds (floored) plus microseconds. -/
structure PyDatetime where
  sec : Int
  usec : Nat
deriving DecidableEq, Repr

/-- Smallest unix-seconds value `datetime.fromtimestamp` accepts
(0001-01-02, measured on CPython with TZ=UTC). -/
def minTs : Int := -62135510400

/-- Largest unix-seconds value representable by `datetime` (year 9999). -/
def maxTs : Int := 253402300799

/-- `datetime.fromtimestamp` on a value with integral seconds `s` and
fractional part `us` microseconds: `none` models the raised exception for
out-of-range input. -/
def pyFromtimestamp (s : Int) (us : Nat) : Option PyDatetime :=
  if minTs ≤ s ∧ s ≤ maxTs then some ⟨s, us⟩ else none

/-- Seconds in 1601-01-01..1970-01-01: the FILETIME/unix epoch difference
in 100ns ticks, the constant `116444736000000000` of the source. -/
def FILETIME_EPOCH : Int := 116444736000000000

/-- The FILETIME conversion `datetime.fromtimestamp((t - 116444736000000000)
/ 10000000)` shared verbatim by `recycle_bin.py`, `registry_artifacts.py`,
`filesystem_artifacts.py` and `browser_artifacts.py`, including the `> 0`
guard that precedes it at every call site.  `.error` is the exception that
`fromtimestamp` raises outside the representable range; `.ok none` is the
`None` taken when the raw value is zero. -/
def filetimeConv (t : Nat) : Except Unit (Option PyDatetime) :=
  if t > 0 then
    let d : Int := (t : Int) - FILETIME_EPOCH
    match pyFromtimestamp (d / 10000000) (((d % 10000000) / 10).toNat) with
    | some dt => .ok (some dt)
    | none => .error ()
  else .ok none

/-- The FILETIME conversion at the call sites that wrap it in
`try: ... except: ... = None` (INFO2, `$I` files, LNK, index.dat). -/
def filetimeConvGuarded (t : Nat) : Option PyDatetime :=
  match filetimeConv t with
  | .ok o => o
  | .error _ => none

/-- `datetime.fromtimestamp` on a plain unix-seconds integer (`time_t`
fields of event logs, filesystem MAC times, sqlite epochs). -/
def unixConv (s : Int) : Except Unit PyDatetime :=
  match pyFromtimestamp s 0 with
  | some dt => .ok dt
  | none => .error ()

/-! ## `datetime.isoformat` -/

/-- The decimal digit character of `n % 10`. -/
def digitChar (n : Nat) : Char :=
  match n % 10 with
  | 0 => '0' | 1 => '1' | 2 => '2' | 3 => '3' | 4 => '4'
  | 5 => '5' | 6 => '6' | 7 => '7' | 8 => '8' | _ => '9'

def pad2c (n : Nat) : List Char := [digitChar (n / 10), digitChar n]

def pad4c (n : Nat) : List Char :=
  [digitChar (n / 1000), digitChar (n / 100), digitChar (n / 10), digitChar n]

def pad6c (n : Nat) : List Char :=
  [digitChar (n / 100000), digitChar (n / 10000), digitChar (n / 1000),
   digitChar (n / 100), digitChar (n / 10), digitChar n]

/-- Civil date (year, month, day) from days since 1970-01-01. -/
def civilFromDays (z0 : Int) : Int × Nat × Nat :=
  let z := z0 + 719468
  let era := z / 146097
  let doe := (z - era * 146097).toNat
  let yoe := (doe - doe / 1460 + doe / 36524 - doe / 146096) / 365
  let doy := doe - (365 * yoe + yoe / 4 - yoe / 100)
  let mp := (5 * doy + 2) / 153
  let dom := doy - (153 * mp + 2) / 5 + 1
  let m := if mp < 10 then mp + 3 else mp - 9
  let y : Int := (yoe : Int) + era * 400 + (if m ≤ 2 then 1 else 0)
  (y, m, dom)

/-- `datetime.isoformat()`: `YYYY-MM-DDTHH:MM:SS` with `.ffffff` appended
exactly when the microsecond field is nonzero. -/
def isoformatChars (dt : PyDatetime) : List Char :=
  let days := dt.sec / 86400
  let sod := (dt.sec % 86400).toNat
  let c := civilFromDays days
  pad4c c.1.toNat ++ '-' :: pad2c c.2.1 ++ '-' :: pad2c c.2.2 ++
    'T' :: pad2c (sod / 3600) ++ ':' :: pad2c (sod % 3600 / 60) ++
    ':' :: pad2c (sod % 60) ++
    (if dt.usec = 0 then [] else '.' :: pad6c dt.usec)

def pyIsoformat (dt : PyDatetime) : String := String.mk (isoformatChars dt)

/-- `dt.isoformat() if dt else None`, the idiom every parser uses to fill a
timestamp field. -/
def optIso : Option PyDatetime → PV
  | none => PV.null
  | some dt => PV.s (pyIsoformat dt)

/-! ## ISO-8601 instant shape (spec-side predicate)

Modelled from the spec: "every emitted record's timestamp field is either a
valid ISO-8601 instant or explicitly null".  The checker accepts exactly the
shape `YYYY-MM-DDTHH:MM:SS` optionally followed by `.ffffff`. -/

def isDigitChar (c : Char) : Bool := decide (48 ≤ c.toNat) && decide (c.toNat ≤ 57)

def isoTail : List Char → Bool
  | [] => true
  | '.' :: us => (us.length == 6) && us.all isDigitChar
  | _ => false

def isIso8601Instant (str : String) : Bool :=
  match str.data with
  | y1 :: y2 :: y3 :: y4 :: '-' :: o1 :: o2 :: '-' :: d1 :: d2 :: 'T' ::
      h1 :: h2 :: ':' :: i1 :: i2 :: ':' :: s1 :: s2 :: rest =>
    ([y1, y2, y3, y4, o1, o2, d1, d2, h1, h2, i1, i2, s1, s2].all isDigitChar) && isoTail rest
  | _ => false

/-! ## Python string helpers (over `.data` char lists) -/

/-- ASCII-range `str.upper()` (sufficient for the paths/names compared). -/
def upperStr (str : String) : String := String.mk (str.data.map Char.toUpper)

/-- ASCII-range `str.lower()`. -/
def lowerStr (str : String) : String := String.mk (str.data.map Char.toLower)

def listStartsWith (pre l : List Char) : Bool :=
  match pre, l with
  | [], _ => true
  | _ :: _, [] => false
  | p :: ps, c :: cs => (p == c) && listStartsWith ps cs

def listContainsSub (needle hay : List Char) : Bool :=
  match hay with
  | [] => needle.isEmpty
  | _ :: rest => listStartsWith needle hay || listContainsSub needle rest

/-- Python `sub in s`. -/
def strContains (str sub : String) : Bool := listContainsSub sub.data str.data

/-- Python `s.startswith(pre)`. -/
def strStartsWith (str pre : String) : Bool := listStartsWith pre.data str.data

/-- Python `s.endswith(suf)`. -/
def strEndsWith (str suf : String) : Bool :=
  listStartsWith suf.data.reverse str.data.reverse

/-- Python `s.split(sep)[0]` for a one-char separator. -/
def splitHead (str : String) (sep : Char) : String :=
  String.mk (str.data.takeWhile (fun c => c != sep))

/-- Python `s.split(sep)[-1]` for a one-char separator. -/
def splitLast (str : String) (sep : Char) : String :=
  String.mk ((str.data.reverse.takeWhile (fun c => c != sep)).reverse)

/-- Python `s.replace(old, new)` (all occurrences, left to right,
non-overlapping); fuel-structured on the input length (each step consumes
at least one character). -/
def replaceAllSubAux (needle repl : List Char) : Nat → List Char → List Char
  | 0, l => l
  | _, [] => []
  | fuel + 1, c :: rest =>
    if !needle.isEmpty && listStartsWith needle (c :: rest) then
      repl ++ replaceAllSubAux needle repl fuel (rest.drop (needle.length - 1))
    else c :: replaceAllSubAux needle repl fuel rest

def replaceAllSub (needle repl l : List Char) : List Char :=
  replaceAllSubAux needle repl l.length l

def strRemoveAll (str sub : String) : String :=
  String.mk (replaceAllSub sub.data [] str.data)

/-- Decimal digits of a natural number, as Python `str(n)` / f-string
interpolation renders it. -/
def natCharsAux : Nat → Nat → List Char → List Char
  | 0, _, acc => acc
  | fuel + 1, n, acc =>
    if n < 10 then digitChar n :: acc
    else natCharsAux fuel (n / 10) (digitChar n :: acc)

def natChars (n : Nat) : List Char := natCharsAux (n + 1) n []

def natStr (n : Nat) : String := String.mk (natChars n)

/-- POSIX `os.path.join(path, name)` for the names this code joins (never
absolute, never empty). -/
def pathJoin (path name : String) : String := String.mk (path.data ++ '/' :: name.data)

/-! ## The mounted-filesystem / external-library model

`pytsk3.FS_Info` (file reads and directory listings), the `Registry`
library (hive parsing) and `sqlite3` (embedded stores) are external
libraries, not code of this repository; they are modelled as oracle fields
of `FS`, universally quantified in every theorem about the parsers. -/

/-- One directory entry as `pytsk3` exposes it (name, meta type, size and
MAC times). -/
structure DirEntry where
  name : String
  isFile : Bool
  size : Nat
  crtime : Int
  mtime : Int
  atime : Int
deriving DecidableEq

/-- A registry hive key: name, values (name → payload), subkeys, and the
key's last-written timestamp (`none` models a `timestamp()` failure). -/
inductive RegKey where
  | mk (name : String) (values : List (String × PV)) (subkeys : List RegKey)
      (ts : Option PyDatetime)

def RegKey.name : RegKey → String
  | .mk n _ _ _ => n

def RegKey.values : RegKey → List (String × PV)
  | .mk _ v _ _ => v

def RegKey.subkeys : RegKey → List RegKey
  | .mk _ _ s _ => s

def RegKey.ts : RegKey → Option PyDatetime
  | .mk _ _ _ t => t

/-- The mounted filesystem view plus the external-library oracles. -/
structure FS where
  /-- `read_file_bytes`: full content by path, `none` when the open/read
  raises. -/
  files : List (String × Bytes)
  /-- `open_dir`: entries by path, `none` when the open raises. -/
  dirs : List (String × List DirEntry)
  /-- `Registry.Registry(...)` on the raw hive bytes; `none` when loading
  raises. -/
  hiveParse : Bytes → Option RegKey
  /-- `sqlite3` query result rows for (database bytes, query text); `none`
  when connecting/querying raises. -/
  sqliteQuery : Bytes → String → Option (List (List PV))

/-- `read_file_bytes` (every module defines the same helper). -/
def readFileBytes (fs : FS) (path : String) : Option Bytes := List.lookup path fs.files

/-- `open_dir` wrapped as each module's `list_directory_entries` does:
failure yields the empty list. -/
def listDir (fs : FS) (path : String) : List DirEntry :=
  (List.lookup path fs.dirs).getD []

/-! ## `recycle_bin.py` -/

/-- Loop body of `parse_info2_file` applied to one 800-byte record slice:
fixed-offset fields, UTF-16 filename with ANSI fallback, FILETIME deletion
time, `D<drive><record#>` recycle name. -/
def info2Record (record : Bytes) : Dict :=
  let record_number := leNat (pyslice record 520 524)
  let drive_number := leNat (pyslice record 524 528)
  let deletion_time := leNat (pyslice record 528 536)
  let file_size := leNat (pyslice record 536 540)
  let filename_unicode :=
    match decodeUtf16leStrict (pyslice record 0 520) with
    | some sdec => rstripNulls sdec
    | none => ""
  let filename_ansi := rstripNulls (decodeAsciiIgnore (pyslice record 540 800))
  let filename := if filename_unicode.data.isEmpty then filename_ansi else filename_unicode
  let deletion_dt := filetimeConvGuarded deletion_time
  let drive_letter := if drive_number < 26 then String.mk [Char.ofNat (65 + drive_number)] else "Unknown"
  let recycle_filename := String.mk ('D' :: drive_letter.data ++ natChars record_number)
  [("original_filename", PV.s filename),
   ("recycle_filename", PV.s recycle_filename),
   ("deletion_time", optIso deletion_dt),
   ("file_size", PV.n file_size),
   ("drive_number", PV.n drive_number),
   ("drive_letter", PV.s drive_letter),
   ("record_number", PV.n record_number)]

/-- The `while offset + record_size <= len(raw_data)` loop of
`parse_info2_file`: one record per full 800-byte slot, advancing by the
fixed record size regardless of the record's content. -/
def info2Loop (data : Bytes) : Nat → Nat → List Dict
  | 0, _ => []
  | fuel + 1, offset =>
    if offset + 800 ≤ data.length then
      info2Record (pyslice data offset (offset + 800)) :: info2Loop data fuel (offset + 800)
    else []

/-- `parse_info2_file` on the raw bytes read from the image (`none` = read
failure).  The 20-byte header is consumed (its version dword is read but
unused by the source); records start at offset 20. -/
def parse_info2_file (raw : Option Bytes) : List Dict :=
  match raw with
  | none => []
  | some data =>
    if data.isEmpty then []
    else if data.length < 20 then []
    else info2Loop data data.length 20

/-- `_parse_vista_info_file`: `$I` metadata file layout. -/
def parse_vista_info_file (info_data : Bytes) (identifier : String) : Option Dict :=
  if info_data.length < 24 then none
  else
    let header_size := leNat (pyslice info_data 0 8)
    let deletion_time := leNat (pyslice info_data 8 16)
    let file_size := leNat (pyslice info_data 16 24)
    let filename :=
      match decodeUtf16leStrict (info_data.drop 24) with
      | some sdec => rstripNulls sdec
      | none => "Unknown"
    let deletion_dt := filetimeConvGuarded deletion_time
    some [("original_filename", PV.s filename),
          ("recycle_filename", PV.s (String.mk ('$' :: 'R' :: identifier.data))),
          ("info_filename", PV.s (String.mk ('$' :: 'I' :: identifier.data))),
          ("deletion_time", optIso deletion_dt),
          ("file_size", PV.n file_size),
          ("header_size", PV.n header_size),
          ("identifier", PV.s identifier)]

/-- A `$I`/`$R` grouping slot of `parse_recycle_bin_vista_plus`. -/
structure RBPair where
  info : Option DirEntry
  dataFile : Option DirEntry
deriving DecidableEq

def rbSetInfo (pairs : List (String × RBPair)) (ident : String) (e : DirEntry) :
    List (String × RBPair) :=
  if pairs.any (fun kv => kv.1 == ident) then
    pairs.map (fun kv => if kv.1 == ident then (ident, { kv.2 with info := some e }) else kv)
  else pairs ++ [(ident, ⟨some e, none⟩)]

def rbSetData (pairs : List (String × RBPair)) (ident : String) (e : DirEntry) :
    List (String × RBPair) :=
  if pairs.any (fun kv => kv.1 == ident) then
    pairs.map (fun kv => if kv.1 == ident then (ident, { kv.2 with dataFile := some e }) else kv)
  else pairs ++ [(ident, ⟨none, some e⟩)]

/-- The grouping loop: `$I`-prefixed names fill the info slot, `$R`-prefixed
names the data slot, keyed by the identifier suffix, in insertion order. -/
def rbGroup : List DirEntry → List (String × RBPair) → List (String × RBPair)
  | [], pairs => pairs
  | e :: rest, pairs =>
    if strStartsWith e.name "$I" then
      rbGroup rest (rbSetInfo pairs (String.mk (e.name.data.drop 2)) e)
    else if strStartsWith e.name "$R" then
      rbGroup rest (rbSetData pairs (String.mk (e.name.data.drop 2)) e)
    else rbGroup rest pairs

/-- `parse_recycle_bin_vista_plus`: list the directory, group `$I`/`$R` by
identifier, parse each present `$I` file, and only when a matching `$R`
entry exists add its size and path to the record. -/
def parse_recycle_bin_vista_plus (fs : FS) (recycle_path : String) : List Dict :=
  let entries := listDir fs recycle_path
  let pairs := rbGroup entries []
  pairs.filterMap fun kv =>
    match kv.2.info with
    | none => none
    | some infoE =>
      match readFileBytes fs (pathJoin recycle_path infoE.name) with
      | none => none
      | some info_data =>
        if info_data.isEmpty then none
        else
          match parse_vista_info_file info_data kv.1 with
          | none => none
          | some rec0 =>
            match kv.2.dataFile with
            | none => some rec0
            | some dataE =>
              some (dictSet (dictSet rec0 "data_file_size" (PV.n dataE.size))
                    "data_file_path" (PV.s (pathJoin recycle_path dataE.name)))

/-- One entry of `analyze_recycle_bin_locations` (path, vista-or-xp flag,
directory entries). -/
structure RBLocation where
  path : String
  vista : Bool
  entries : List DirEntry

/-- `analyze_recycle_bin_locations`: probe the four well-known directories;
non-empty listings become locations, typed by the `$Recycle.Bin` substring. -/
def analyze_recycle_bin_locations (fs : FS) : List RBLocation :=
  ["/RECYCLER", "/Recycler", "/$Recycle.Bin", "/RECYCLED"].filterMap fun p =>
    let entries := listDir fs p
    if entries.isEmpty then none
    else some ⟨p, strContains p "$Recycle.Bin", entries⟩

/-- The per-location record dict stored in the `locations` output field. -/
def rbLocationDict (loc : RBLocation) : Dict :=
  [("path", PV.s loc.path),
   ("type", PV.s (if loc.vista then "vista_plus" else "xp_2000")),
   ("entries", PV.list (loc.entries.map fun e =>
     PV.dict [("name", PV.s e.name),
              ("path", PV.s (pathJoin loc.path e.name)),
              ("size", PV.n e.size),
              ("type", PV.s (if e.isFile then "file" else "directory"))]))]

/-- The deleted-file records contributed by one location. -/
def rbLocationFiles (fs : FS) (loc : RBLocation) : List Dict :=
  if loc.vista then
    loc.entries.flatMap fun e =>
      if !e.isFile then
        (parse_recycle_bin_vista_plus fs (pathJoin loc.path e.name)).map fun fi =>
          dictSet fi "user_sid" (PV.s e.name)
      else []
  else
    loc.entries.flatMap fun e =>
      if upperStr e.name == "INFO2" then
        parse_info2_file (readFileBytes fs (pathJoin loc.path e.name))
      else []

def pvIntOfGet : Option PV → Int
  | some (.n v) => v
  | _ => 0

/-- The `deletion_time` strings collected for the date-range summary. -/
def rbDeletionTimes (files : List Dict) : List String :=
  files.filterMap fun fi =>
    match dictGet fi "deletion_time" with
    | some (.s v) => if v.data.isEmpty then none else some v
    | _ => none

/-- Python `str` ordering (lexicographic on code points). -/
def strLeAux : List Char → List Char → Bool
  | [], _ => true
  | _ :: _, [] => false
  | c :: cs, d :: ds => if c == d then strLeAux cs ds else decide (c.toNat < d.toNat)

def strLe (a b : String) : Bool := strLeAux a.data b.data

/-- `list.sort()` on ISO strings (a stable sort; only the first and last
elements are consumed, for the date-range summary). -/
def insertSorted (x : String) : List String → List String
  | [] => [x]
  | y :: ys => if strLe x y then x :: y :: ys else y :: insertSorted x ys

def pySortStrings (l : List String) : List String := l.foldr insertSorted []

/-- `extract_all_recycle_bin_artifacts`: locations, the concatenated
deleted-file records, and the summary statistics. -/
def extract_all_recycle_bin_artifacts (fs : FS) : Dict :=
  let locations := analyze_recycle_bin_locations fs
  let deleted_files := locations.flatMap (rbLocationFiles fs)
  let total_size := deleted_files.foldl (fun acc fi => acc + pvIntOfGet (dictGet fi "file_size")) 0
  let deletion_times := pySortStrings (rbDeletionTimes deleted_files)
  [("locations", PV.list (locations.map (fun loc => PV.dict (rbLocationDict loc)))),
   ("deleted_files", PV.list (deleted_files.map PV.dict)),
   ("summary", PV.dict
     [("total_deleted_files", PV.n deleted_files.length),
      ("total_size", PV.n total_size),
      ("date_range", PV.dict
        [("earliest", match deletion_times.head? with
          | some v => PV.s v
          | none => PV.null),
         ("latest", match deletion_times.getLast? with
          | some v => PV.s v
          | none => PV.null)])])]

/-! ## `event_logs.py` -/

/-- The two accepted signatures `b'LfLe'` and `b'ElfF'`. -/
def evtSigOk (s : Bytes) : Bool := s == [76, 102, 76, 101] || s == [69, 108, 102, 70]

/-- The per-record signature `b'LfLe'`. -/
def lfleSig : Bytes := [76, 102, 76, 101]

/-- `time_t` fields of an event record: `fromtimestamp(t) if t else None`,
not wrapped in its own `try` (an exception would skip the whole record). -/
def evtTime (t : Nat) : Except Unit (Option PyDatetime) :=
  if t ≠ 0 then (unixConv t).map some else .ok none

/-- Python `"Unknown(%d)"`-style fallback of the event-type map. -/
def eventTypeName (et : Nat) : String :=
  match et with
  | 1 => "Error"
  | 2 => "Warning"
  | 4 => "Information"
  | 8 => "Success Audit"
  | 16 => "Failure Audit"
  | _ => String.mk ("Unknown(".data ++ natChars et ++ [')'])

/-- The positional-string loop of `_parse_evt_record`: up to `num_strings`
null-terminated UTF-16LE strings, stopping at the end of data or a missing
terminator. -/
def evtStringsLoop (string_data : Bytes) : Nat → Nat → List String
  | 0, _ => []
  | k + 1, pos =>
    if pos ≥ string_data.length then []
    else
      match pyFind string_data [0, 0] pos string_data.length with
      | none => []
      | some np => decodeUtf16leIgnore (pyslice string_data pos np) ::
          evtStringsLoop string_data k (np + 2)

/-- `_parse_evt_record`: fixed 56-byte header, null-terminated source and
computer names, positional strings, `time_t` timestamps. -/
def parse_evt_record (rd : Bytes) : Option Dict :=
  if rd.length < 56 then none
  else
    let record_number := leNat (pyslice rd 8 12)
    let time_generated := leNat (pyslice rd 12 16)
    let time_written := leNat (pyslice rd 16 20)
    let event_id := leNat (pyslice rd 20 24)
    let event_type := leNat (pyslice rd 24 26)
    let num_strings := leNat (pyslice rd 26 28)
    let event_category := leNat (pyslice rd 28 30)
    let string_offset := leNat (pyslice rd 36 40)
    let user_sid_length := leNat (pyslice rd 40 44)
    let data_length := leNat (pyslice rd 48 52)
    let source_end := pyFind rd [0, 0] 56 rd.length
    let source_name :=
      match source_end with
      | none => ""
      | some e => decodeUtf16leIgnore (pyslice rd 56 e)
    let computer_start := match source_end with | some e => e + 2 | none => 56
    let computer_name :=
      match pyFind rd [0, 0] computer_start rd.length with
      | none => ""
      | some e => decodeUtf16leIgnore (pyslice rd computer_start e)
    let strings :=
      if string_offset < rd.length ∧ num_strings > 0 then
        evtStringsLoop (rd.drop string_offset) num_strings 0
      else []
    match evtTime time_generated, evtTime time_written with
    | .ok tg, .ok tw =>
      some [("record_number", PV.n record_number),
            ("event_id", PV.n event_id),
            ("event_type", PV.s (eventTypeName event_type)),
            ("event_category", PV.n event_category),
            ("time_generated", optIso tg),
            ("time_written", optIso tw),
            ("source_name", PV.s source_name),
            ("computer_name", PV.s computer_name),
            ("strings", PV.list (strings.map PV.s)),
            ("user_sid_length", PV.n user_sid_length),
            ("data_length", PV.n data_length)]
    | _, _ => none

/-- The record-scan loop of `parse_evt_file`: at each offset below
`len - 8`, a missing `LfLe` advances by 1; a record length below 56 or
reaching past the end advances by 8 without parsing; otherwise the record
slice is parsed and the offset advances by the declared length. -/
def evtLoop (data : Bytes) : Nat → Nat → List Dict
  | 0, _ => []
  | fuel + 1, offset =>
    if offset < data.length - 8 then
      if pyslice data offset (offset + 4) == lfleSig then
        match unpackLE 4 data (offset + 4) with
        | none => evtLoop data fuel (offset + 1)
        | some record_length =>
          if record_length < 56 || decide (offset + record_length > data.length) then
            evtLoop data fuel (offset + 8)
          else
            match parse_evt_record (pyslice data offset (offset + record_length)) with
            | some ev => ev :: evtLoop data fuel (offset + record_length)
            | none => evtLoop data fuel (offset + record_length)
      else evtLoop data fuel (offset + 1)
    else []

/-- The bounded forward signature scan of `parse_evt_file`:
`for i in range(0, min(512, len(raw_data) - 4), 4)`. -/
def findEvtSig (data : Bytes) : Nat → Nat → Option Nat
  | 0, _ => none
  | fuel + 1, i =>
    if i < min 512 (data.length - 4) then
      if evtSigOk (pyslice data i (i + 4)) then some i
      else findEvtSig data fuel (i + 4)
    else none

/-- `parse_evt_file` on the raw bytes read from the image: size gate,
signature at 0 or bounded scan (re-slicing the buffer to the found
signature), header-field reads, then the record loop.  A header read that
raises after re-slicing is caught by the function's outer `try`, yielding
the empty event list. -/
def parse_evt_file (raw : Option Bytes) : List Dict :=
  match raw with
  | none => []
  | some data0 =>
    if data0.isEmpty then []
    else if data0.length < 48 then []
    else
      let adj :=
        if evtSigOk (pyslice data0 0 4) then some data0
        else
          match findEvtSig data0 129 0 with
          | some i => some (data0.drop i)
          | none => none
      match adj with
      | none => []
      | some data =>
        match unpackLE 4 data 4, unpackLE 4 data 16, unpackLE 4 data 20 with
        | some header_size, some _, some _ => evtLoop data data.length header_size
        | _, _, _ => []

/-- The fixed logon/logoff event-id table of `extract_logon_events`. -/
def logonEventDesc (eid : Nat) : Option String :=
  match eid with
  | 528 => some "Successful Logon"
  | 529 => some "Logon Failure - Unknown user name or bad password"
  | 530 => some "Logon Failure - Account logon time restriction violation"
  | 531 => some "Logon Failure - Account currently disabled"
  | 532 => some "Logon Failure - The specified user account has expired"
  | 533 => some "Logon Failure - User not allowed to logon at this computer"
  | 534 => some "Logon Failure - The user has not been granted the requested logon type"
  | 535 => some "Logon Failure - The specified account's password has expired"
  | 536 => some "Logon Failure - The NetLogon service is not active"
  | 537 => some "Logon Failure - Unknown reason"
  | 538 => some "User Logoff"
  | 539 => some "Logon Failure - Account locked out"
  | 540 => some "Successful Network Logon"
  | 4624 => some "An account was successfully logged on"
  | 4625 => some "An account failed to log on"
  | 4634 => some "An account was logged off"
  | 4647 => some "User initiated logoff"
  | 4648 => some "A logon was attempted using explicit credentials"
  | _ => none

def successLogonIds : List Nat := [528, 540, 4624]
def failedLogonIds : List Nat := [529, 530, 531, 532, 533, 534, 535, 536, 537, 539, 4625]
def logoffIds : List Nat := [538, 4634, 4647]

/-- `_parse_logon_strings`: the fixed per-event-id positional mapping. -/
def parse_logon_strings (eid : Nat) (strings : List String) : Dict :=
  let g (i : Nat) : PV := PV.s ((strings.getD i ""))
  if successLogonIds.contains eid then
    if strings.length ≥ 8 then
      [("user_name", g 0), ("domain", g 1), ("logon_id", g 2), ("logon_type", g 3),
       ("logon_process", g 4), ("authentication_package", g 5),
       ("workstation_name", g 6), ("source_network_address", g 7)]
    else []
  else if failedLogonIds.contains eid then
    if strings.length ≥ 6 then
      [("user_name", g 0), ("domain", g 1), ("failure_reason", g 2),
       ("status", g 3), ("sub_status", g 4), ("workstation_name", g 5)]
    else []
  else if logoffIds.contains eid then
    if strings.length ≥ 3 then
      [("user_name", g 0), ("domain", g 1), ("logon_id", g 2)]
    else []
  else []

def pvNatOfGet : Option PV → Nat
  | some (.n v) => v.toNat
  | _ => 0

def pvStringsOfGet : Option PV → List String
  | some (.list vs) => vs.filterMap fun v => match v with | .s x => some x | _ => none
  | _ => []

/-- `extract_logon_events`. -/
def extract_logon_events (events : List Dict) : List Dict :=
  events.filterMap fun ev =>
    let eid := pvNatOfGet (dictGet ev "event_id")
    match logonEventDesc eid with
    | none => none
    | some desc =>
      let strings := pvStringsOfGet (dictGet ev "strings")
      let ev1 := dictSet ev "event_description" (PV.s desc)
      some (if !strings.isEmpty then
              dictSet ev1 "logon_details" (PV.dict (parse_logon_strings eid strings))
            else ev1)

/-- The fixed system event-id table of `extract_system_events`. -/
def systemEventDesc (eid : Nat) : Option String :=
  match eid with
  | 6005 => some "The Event log service was started"
  | 6006 => some "The Event log service was stopped"
  | 6009 => some "System startup"
  | 6013 => some "System uptime"
  | 1074 => some "System shutdown initiated by user"
  | 1076 => some "System shutdown reason"
  | 6008 => some "Unexpected system shutdown"
  | 7034 => some "Service crashed unexpectedly"
  | 7035 => some "Service sent a control"
  | 7036 => some "Service started or stopped"
  | 7040 => some "Service start type changed"
  | _ => none

def serviceEventIds : List Nat := [7034, 7035, 7036, 7040]

/-- `extract_system_events`. -/
def extract_system_events (events : List Dict) : List Dict :=
  events.filterMap fun ev =>
    let eid := pvNatOfGet (dictGet ev "event_id")
    match systemEventDesc eid with
    | none => none
    | some desc =>
      let strings := pvStringsOfGet (dictGet ev "strings")
      let ev1 := dictSet ev "event_description" (PV.s desc)
      some (if serviceEventIds.contains eid ∧ !strings.isEmpty then
              let ev2 := dictSet ev1 "service_name" (PV.s (strings.getD 0 ""))
              if eid = 7036 ∧ strings.length > 1 then
                dictSet ev2 "service_state" (PV.s (strings.getD 1 ""))
              else ev2
            else ev1)

/-- One discovered log file of `list_event_log_files`. -/
structure LogFile where
  name : String
  path : String
  size : Nat
  isEvtx : Bool

/-- `list_event_log_files`: the three well-known directories, filtered by
the `.evt`/`.evtx` suffix of the lowercased name. -/
def list_event_log_files (fs : FS) : List LogFile :=
  ["/Windows/System32/winevt/Logs", "/Windows/System32/config",
   "/WINNT/System32/config"].flatMap fun p =>
    (listDir fs p).filterMap fun e =>
      let nl := lowerStr e.name
      if strEndsWith nl ".evt" || strEndsWith nl ".evtx" then
        some ⟨e.name, pathJoin p e.name, e.size, strEndsWith nl ".evtx"⟩
      else none

def logFileDict (lf : LogFile) : Dict :=
  [("name", PV.s lf.name), ("path", PV.s lf.path), ("size", PV.n lf.size),
   ("type", PV.s (if lf.isEvtx then "evtx" else "evt"))]

/-- `extract_all_event_log_artifacts`: `.evt` files are parsed (`.evtx` is
explicitly not), per-event timestamp strings are collected for the date
range. -/
def extract_all_event_log_artifacts (fs : FS) : Dict :=
  let log_files := list_event_log_files fs
  let all_events := log_files.flatMap fun lf =>
    if !lf.isEvtx then parse_evt_file (readFileBytes fs lf.path) else []
  let event_times := pySortStrings (all_events.filterMap fun ev =>
    match dictGet ev "time_generated" with
    | some (.s v) => if v.data.isEmpty then none else some v
    | _ => none)
  let logon_events := extract_logon_events all_events
  let system_events := extract_system_events all_events
  [("log_files", PV.list (log_files.map (fun lf => PV.dict (logFileDict lf)))),
   ("all_events", PV.list (all_events.map PV.dict)),
   ("logon_events", PV.list (logon_events.map PV.dict)),
   ("system_events", PV.list (system_events.map PV.dict)),
   ("summary", PV.dict
     [("total_events", PV.n all_events.length),
      ("total_logon_events", PV.n logon_events.length),
      ("total_system_events", PV.n system_events.length),
      ("date_range", PV.dict
        [("earliest", match event_times.head? with
          | some v => PV.s v
          | none => PV.null),
         ("latest", match event_times.getLast? with
          | some v => PV.s v
          | none => PV.null)])])]

/-! ## `filesystem_artifacts.py` -/

/-- `datetime.fromtimestamp(t).isoformat() if t else None` on a directory
entry's MAC time, not wrapped in a `try` of its own. -/
def fsFileTimeField (t : Int) : Except Unit PV :=
  if t ≠ 0 then (unixConv t).map (fun dt => PV.s (pyIsoformat dt)) else .ok PV.null

/-- `b'SCCA'`. -/
def sccaSig : Bytes := [83, 67, 67, 65]

/-- `b'MAM\x04'`. -/
def mamSig : Bytes := [77, 65, 77, 4]

/-- `_parse_prefetch_v17` (Windows XP/2003 layout): executable name via the
offset/length pair at 16/20 into a UTF-16LE region, run count at 144,
one FILETIME at 120.  The FILETIME conversion is not wrapped in its own
`try`; an out-of-range value voids the whole record. -/
def parse_prefetch_v17 (pf : Bytes) (filename : String) : Option Dict :=
  let eoff := leNat (pyslice pf 16 20)
  let elen := leNat (pyslice pf 20 24)
  let executable_name :=
    if eoff < pf.length then rstripNulls (decodeUtf16leIgnore (pyslice pf eoff (eoff + elen)))
    else splitHead filename '-'
  match unpackLE 4 pf 144, unpackLE 8 pf 120 with
  | some run_count, some last_run_time =>
    match filetimeConv last_run_time with
    | .error _ => none
    | .ok dt =>
      some [("filename", PV.s filename),
            ("executable_name", PV.s executable_name),
            ("run_count", PV.n run_count),
            ("last_run_time", optIso dt),
            ("version", PV.s "XP/2003"),
            ("prefetch_hash", PV.s (if strContains filename "-" then
              strRemoveAll (splitLast filename '-') ".pf" else ""))]
  | _, _ => none

/-- The eight-slot timestamp loop of `_parse_prefetch_v1A`: slots at
`128 + 8*i`, kept when nonzero and convertible (a conversion failure is
`except: pass`, i.e. the slot is skipped). -/
def v1ATimes (pf : Bytes) : List Nat → List String
  | [] => []
  | i :: rest =>
    (if 128 + i * 8 + 8 ≤ pf.length then
      if leNat (pyslice pf (128 + i * 8) (128 + i * 8 + 8)) > 0 then
        match filetimeConvGuarded (leNat (pyslice pf (128 + i * 8) (128 + i * 8 + 8))) with
        | some dt => [pyIsoformat dt]
        | none => []
      else []
    else []) ++ v1ATimes pf rest

/-- `_parse_prefetch_v1A` (Vista/7 layout, and what `_parse_prefetch_v1E`
and `_parse_prefetch_v1F` delegate to): run count at 152, up to eight
FILETIME timestamps starting at 128. -/
def parse_prefetch_v1A (pf : Bytes) (filename : String) : Option Dict :=
  let eoff := leNat (pyslice pf 16 20)
  let elen := leNat (pyslice pf 20 24)
  let executable_name :=
    if eoff < pf.length then rstripNulls (decodeUtf16leIgnore (pyslice pf eoff (eoff + elen)))
    else splitHead filename '-'
  match unpackLE 4 pf 152 with
  | some run_count =>
    let last_run_times := v1ATimes pf (List.range 8)
    some [("filename", PV.s filename),
          ("executable_name", PV.s executable_name),
          ("run_count", PV.n run_count),
          ("last_run_times", PV.list (last_run_times.map PV.s)),
          ("last_run_time", match last_run_times.head? with
            | some v => PV.s v
            | none => PV.null),
          ("version", PV.s "Vista/7"),
          ("prefetch_hash", PV.s (if strContains filename "-" then
            strRemoveAll (splitLast filename '-') ".pf" else ""))]
  | none => none

/-- `_parse_prefetch_file`: size gate, two accepted signatures at offset 0,
version read at offset 0 (`SCCA`) or 4 (`MAM\x04`), dispatch on 0x17 /
0x1A / 0x1E / 0x1F, anything else yields no record. -/
def parse_prefetch_file (pf : Bytes) (filename : String) : Option Dict :=
  if pf.length < 84 then none
  else
    let signature := pyslice pf 0 4
    if !(signature == sccaSig || signature == mamSig) then none
    else
      let version := if signature == sccaSig then leNat (pyslice pf 0 4)
                     else leNat (pyslice pf 4 8)
      if version = 0x17 then parse_prefetch_v17 pf filename
      else if version = 0x1A then parse_prefetch_v1A pf filename
      else if version = 0x1E then parse_prefetch_v1A pf filename
      else if version = 0x1F then parse_prefetch_v1A pf filename
      else none

/-- `parse_prefetch_files`: every `.PF` entry of `/Windows/Prefetch` whose
bytes parse, decorated with path/size/MAC-time fields; the MAC-time
conversions are unguarded, so a failure aborts the whole listing (caught
only by `extract_all_filesystem_artifacts`). -/
def parse_prefetch_files (fs : FS) : Except Unit (List Dict) :=
  (listDir fs "/Windows/Prefetch").foldlM (fun acc e =>
    if strEndsWith (upperStr e.name) ".PF" then
      match readFileBytes fs (pathJoin "/Windows/Prefetch" e.name) with
      | none => pure acc
      | some pf =>
        if pf.isEmpty then pure acc
        else
          match parse_prefetch_file pf e.name with
          | none => pure acc
          | some rec0 => do
            let fc ← fsFileTimeField e.crtime
            let fm ← fsFileTimeField e.mtime
            pure (acc ++ [dictSet (dictSet (dictSet (dictSet rec0
              "file_path" (PV.s (pathJoin "/Windows/Prefetch" e.name)))
              "file_size" (PV.n e.size)) "file_created" fc) "file_modified" fm])
    else pure acc) []

/-- `_parse_string_data`: a 16-bit character count followed by that many
UTF-16LE code units; a count reaching past the end of the buffer yields
the empty string with the offset advanced only past the count field. -/
def parse_string_data (lnk : Bytes) (offset : Nat) : String × Nat :=
  if offset + 2 > lnk.length then ("", offset)
  else
    let strLen := leNat (pyslice lnk offset (offset + 2))
    let off2 := offset + 2
    if off2 + strLen * 2 > lnk.length then ("", off2)
    else (decodeUtf16leIgnore (pyslice lnk off2 (off2 + strLen * 2)), off2 + strLen * 2)

/-- `_parse_linkinfo`: local base path (flag 0x1) with fall-through to the
common network path (flag 0x2), both as null-terminated ASCII. -/
def parse_linkinfo (li : Bytes) : String :=
  if li.length < 28 then ""
  else
    let flags := leNat (pyslice li 8 12)
    let localPath : Option String :=
      if flags &&& 1 ≠ 0 then
        let off := leNat (pyslice li 16 20)
        if off < li.length then
          match pyFind li [0] off li.length with
          | some e => some (decodeAsciiIgnore (pyslice li off e))
          | none => none
        else none
      else none
    match localPath with
    | some str => str
    | none =>
      if flags &&& 2 ≠ 0 then
        let noff := leNat (pyslice li 20 24)
        if noff < li.length then
          match pyFind li [0] noff li.length with
          | some e => decodeAsciiIgnore (pyslice li noff e)
          | none => ""
        else ""
      else ""

/-- `_parse_link_file`: signature and 76-byte header, three guarded
FILETIME conversions, the optional id-list and LinkInfo structures, then
the five flag-gated string fields in fixed order.  The parsed name and
relative-path strings are read into locals the source never emits: the
returned record has no `name` or `relative_path` key. -/
def parse_link_file (lnk : Bytes) (filename : String) : Option Dict :=
  if lnk.length < 76 then none
  else if !(pyslice lnk 0 4 == [76, 0, 0, 0]) then none
  else
    let link_flags := leNat (pyslice lnk 20 24)
    let file_attributes := leNat (pyslice lnk 24 28)
    let creation_time := leNat (pyslice lnk 28 36)
    let access_time := leNat (pyslice lnk 36 44)
    let write_time := leNat (pyslice lnk 44 52)
    let file_size := leNat (pyslice lnk 52 56)
    let icon_index := leNat (pyslice lnk 56 60)
    let show_command := leNat (pyslice lnk 60 64)
    let creation_dt := filetimeConvGuarded creation_time
    let access_dt := filetimeConvGuarded access_time
    let write_dt := filetimeConvGuarded write_time
    let offset1 :=
      if link_flags &&& 1 ≠ 0 then
        if 76 + 2 ≤ lnk.length then 76 + 2 + leNat (pyslice lnk 76 78) else 76
      else 76
    let linkInfoStep : String × Nat :=
      if link_flags &&& 2 ≠ 0 then
        if offset1 + 4 ≤ lnk.length then
          let lsize := leNat (pyslice lnk offset1 (offset1 + 4))
          (parse_linkinfo (pyslice lnk offset1 (offset1 + lsize)), offset1 + lsize)
        else ("", offset1)
      else ("", offset1)
    let target_path := linkInfoStep.1
    let offset2 := linkInfoStep.2
    let offset3 := if link_flags &&& 4 ≠ 0 then (parse_string_data lnk offset2).2 else offset2
    let offset4 := if link_flags &&& 8 ≠ 0 then (parse_string_data lnk offset3).2 else offset3
    let wdStep : String × Nat :=
      if link_flags &&& 16 ≠ 0 then parse_string_data lnk offset4 else ("", offset4)
    let argStep : String × Nat :=
      if link_flags &&& 32 ≠ 0 then parse_string_data lnk wdStep.2 else ("", wdStep.2)
    let icon_location := if link_flags &&& 64 ≠ 0 then (parse_string_data lnk argStep.2).1 else ""
    some [("filename", PV.s filename),
          ("target_path", PV.s target_path),
          ("arguments", PV.s argStep.1),
          ("working_directory", PV.s wdStep.1),
          ("icon_location", PV.s icon_location),
          ("creation_time", optIso creation_dt),
          ("access_time", optIso access_dt),
          ("write_time", optIso write_dt),
          ("file_size", PV.n file_size),
          ("file_attributes", PV.n file_attributes),
          ("icon_index", PV.n icon_index),
          ("show_command", PV.n show_command),
          ("link_flags", PV.n link_flags)]

/-- `_find_link_files_recursive` with its depth bound: `.lnk` entries are
parsed and decorated (MAC-time conversion unguarded at the current level);
every other entry is recursed into with the recursion wrapped in
`try/except continue`, so only a failure at the top level escapes. -/
def findLinkFilesRec (fs : FS) (path : String) : Nat → Except Unit (List Dict)
  | 0 => pure []
  | depth + 1 =>
    (listDir fs path).foldlM (fun acc e =>
      if strEndsWith (lowerStr e.name) ".lnk" then
        match readFileBytes fs (pathJoin path e.name) with
        | none => pure acc
        | some lnk =>
          if lnk.isEmpty then pure acc
          else
            match parse_link_file lnk e.name with
            | none => pure acc
            | some rec0 => do
              let fc ← fsFileTimeField e.crtime
              let fm ← fsFileTimeField e.mtime
              pure (acc ++ [dictSet (dictSet (dictSet (dictSet rec0
                "file_path" (PV.s (pathJoin path e.name)))
                "file_size" (PV.n e.size)) "file_created" fc) "file_modified" fm])
      else
        match findLinkFilesRec fs (pathJoin path e.name) depth with
        | .ok subs => pure (acc ++ subs)
        | .error _ => pure acc) []

/-- `parse_link_files` over the two default search roots. -/
def parse_link_files (fs : FS) : Except Unit (List Dict) := do
  let a ← findLinkFilesRec fs "/Documents and Settings" 5
  let b ← findLinkFilesRec fs "/Users" 5
  pure (a ++ b)

/-- The per-base-path entry loop of `parse_jump_lists`; the whole per-path
body sits in `try/except continue`, so a MAC-time failure keeps the entries
appended so far and moves to the next path. -/
def jumpListLoop (base : String) : List DirEntry → List Dict → List Dict
  | [], acc => acc
  | e :: rest, acc =>
    if strEndsWith e.name ".automaticDestinations-ms" ||
       strEndsWith e.name ".customDestinations-ms" then
      match fsFileTimeField e.crtime, fsFileTimeField e.mtime with
      | .ok fc, .ok fm =>
        jumpListLoop base rest (acc ++
          [[("filename", PV.s e.name),
            ("path", PV.s (pathJoin base e.name)),
            ("size", PV.n e.size),
            ("created", fc),
            ("modified", fm),
            ("type", PV.s (if strContains (lowerStr e.name) "automatic" then "automatic"
                           else "custom"))]])
      | _, _ => acc
    else jumpListLoop base rest acc

/-- `parse_jump_lists`: the three wildcard patterns collapse (via the
source's `replace` calls) to two literal base paths, probed directly. -/
def parse_jump_lists (fs : FS) : List Dict :=
  ["/Users/*/AppData/Roaming/Microsoft/Windows/Recent/AutomaticDestinations",
   "/Users/*/AppData/Roaming/Microsoft/Windows/Recent/CustomDestinations",
   "/Documents and Settings/*/Recent"].foldl (fun acc p =>
    let base := strRemoveAll (strRemoveAll (strRemoveAll p "*")
      "/AutomaticDestinations") "/CustomDestinations"
    jumpListLoop base (listDir fs base) acc) []

/-- `parse_usn_journal` (a fixed placeholder dict). -/
def parse_usn_journal : Dict :=
  [("status", PV.s "USN Journal parsing requires advanced NTFS structure analysis"),
   ("location", PV.s "/$Extend/$UsnJrnl"),
   ("note", PV.s "This feature would parse file system change records")]

/-- Nested `d[k1][k2] = v` on a dict-valued entry. -/
def dictSetIn (d : Dict) (k1 k2 : String) (v : PV) : Dict :=
  dictSet d k1 (match dictGet d k1 with
    | some (.dict inner) => PV.dict (dictSet inner k2 v)
    | _ => PV.dict [(k2, v)])

/-- `extract_all_filesystem_artifacts`: the pre-initialized result shape,
filled step by step inside one `try`; an exception leaves the keys filled
so far and returns the dict with every key still present. -/
def extract_all_filesystem_artifacts (fs : FS) : Dict :=
  let d0 : Dict :=
    [("prefetch_files", PV.list []),
     ("link_files", PV.list []),
     ("jump_lists", PV.list []),
     ("usn_journal", PV.dict []),
     ("summary", PV.dict
       [("total_prefetch", PV.n 0), ("total_links", PV.n 0), ("total_jump_lists", PV.n 0)])]
  match parse_prefetch_files fs with
  | .error _ => d0
  | .ok pf =>
    let d1 := dictSetIn (dictSet d0 "prefetch_files" (PV.list (pf.map PV.dict)))
      "summary" "total_prefetch" (PV.n pf.length)
    match parse_link_files fs with
    | .error _ => d1
    | .ok lf =>
      let d2 := dictSetIn (dictSet d1 "link_files" (PV.list (lf.map PV.dict)))
        "summary" "total_links" (PV.n lf.length)
      let jl := parse_jump_lists fs
      let d3 := dictSetIn (dictSet d2 "jump_lists" (PV.list (jl.map PV.dict)))
        "summary" "total_jump_lists" (PV.n jl.length)
      dictSet d3 "usn_journal" (PV.dict parse_usn_journal)

/-! ## `browser_artifacts.py` -/

/-- `datetime.fromtimestamp(v / 1000000)` (Firefox microsecond epoch). -/
def epochUsConv (v : Int) : Except Unit PyDatetime :=
  match pyFromtimestamp (v / 1000000) ((v % 1000000).toNat) with
  | some dt => .ok dt
  | none => .error ()

/-- `datetime(1601, 1, 1) + timedelta(microseconds=v)` (Chromium epoch);
an out-of-range result raises `OverflowError`. -/
def chromeUsConv (v : Int) : Except Unit PyDatetime :=
  match pyFromtimestamp (-11644473600 + v / 1000000) ((v % 1000000).toNat) with
  | some dt => .ok dt
  | none => .error ()

/-- `conv(x).isoformat() if x else None` over a sqlite cell, raising
`TypeError` on a truthy non-integer cell. -/
def pvTime (conv : Int → Except Unit PyDatetime) (v : PV) : Except Unit PV :=
  if pvTruthy v then
    match v with
    | PV.n x => (conv x).map (fun dt => PV.s (pyIsoformat dt))
    | _ => .error ()
  else .ok PV.null

/-- The `for row in cur.fetchall()` pattern: a row that raises mid-loop
keeps the records appended so far (the function-level `except` merely logs). -/
def sqliteRowsLoop (f : List PV → Except Unit Dict) : List (List PV) → List Dict
  | [] => []
  | r :: rs =>
    match f r with
    | .ok d => d :: sqliteRowsLoop f rs
    | .error _ => []

/-- Run one sqlite extraction: missing/empty file, connection failure or
query failure all yield the empty list. -/
def sqliteExtract (fs : FS) (path : String) (query : String)
    (f : List PV → Except Unit Dict) : List Dict :=
  match readFileBytes fs path with
  | none => []
  | some raw =>
    if raw.isEmpty then []
    else
      match fs.sqliteQuery raw query with
      | none => []
      | some rows => sqliteRowsLoop f rows

def ffHistoryRow (row : List PV) : Except Unit Dict :=
  match row with
  | [u, t, vc, lv, ty, hd, fr] => do
    let ts ← pvTime epochUsConv lv
    pure [("source", PV.s "firefox"), ("url", u), ("title", t),
          ("visit_count", vc), ("last_visit", ts),
          ("typed", PV.b (pvTruthy ty)), ("hidden", PV.b (pvTruthy hd)),
          ("frecency", fr)]
  | _ => .error ()

def ffCookieRow (row : List PV) : Except Unit Dict :=
  match row with
  | [nm, v, h, p, ex, la, ct, sec, ho] => do
    let exV ← pvTime (fun x => (unixConv x)) ex
    let laV ← pvTime epochUsConv la
    let ctV ← pvTime epochUsConv ct
    pure [("source", PV.s "firefox"), ("name", nm), ("value", v), ("host", h),
          ("path", p), ("expiry", exV), ("last_accessed", laV),
          ("creation_time", ctV), ("is_secure", PV.b (pvTruthy sec)),
          ("is_http_only", PV.b (pvTruthy ho))]
  | _ => .error ()

def ffDownloadRow (row : List PV) : Except Unit Dict :=
  match row with
  | [u, t, dest, lv] => do
    let ts ← pvTime epochUsConv lv
    pure [("source", PV.s "firefox"), ("url", u), ("title", t),
          ("destination", dest), ("download_time", ts)]
  | _ => .error ()

def ffHistoryQuery : String :=
  "SELECT url, title, visit_count, last_visit_date, typed, hidden, frecency FROM moz_places"

def ffCookieQuery : String :=
  "SELECT name, value, host, path, expiry, lastAccessed, creationTime, isSecure, isHttpOnly FROM moz_cookies"

def ffDownloadQuery : String :=
  "SELECT p.url, p.title, a.content, p.last_visit_date FROM moz_places JOIN moz_annos"

/-- `extract_firefox_artifacts`: per Firefox profile directory, history and
downloads from `places.sqlite`, cookies from `cookies.sqlite`. -/
def extract_firefox_artifacts (fs : FS) (profile : String) :
    List Dict × List Dict × List Dict :=
  let base := pathJoin profile "AppData/Roaming/Mozilla/Firefox/Profiles"
  (listDir fs base).foldl (fun acc e =>
    let pp := pathJoin base e.name
    let h := sqliteExtract fs (pathJoin pp "places.sqlite") ffHistoryQuery ffHistoryRow
    let c := sqliteExtract fs (pathJoin pp "cookies.sqlite") ffCookieQuery ffCookieRow
    let d := sqliteExtract fs (pathJoin pp "places.sqlite") ffDownloadQuery ffDownloadRow
    (acc.1 ++ h, acc.2.1 ++ c, acc.2.2 ++ d)) ([], [], [])

def chromiumHistoryRow (browser : String) (row : List PV) : Except Unit Dict :=
  match row with
  | [u, t, vc, lvt, tc] => do
    let ts ← pvTime chromeUsConv lvt
    pure [("source", PV.s browser), ("url", u), ("title", t),
          ("visit_count", vc), ("last_visit", ts), ("typed_count", tc)]
  | _ => .error ()

def chromiumCookieRow (browser : String) (row : List PV) : Except Unit Dict :=
  match row with
  | [nm, v, hk, p, ex, la, cr, sec, ho] => do
    let exV ← pvTime chromeUsConv ex
    let laV ← pvTime chromeUsConv la
    let crV ← pvTime chromeUsConv cr
    pure [("source", PV.s browser), ("name", nm), ("value", v), ("host", hk),
          ("path", p), ("expires", exV), ("last_access", laV), ("creation", crV),
          ("is_secure", PV.b (pvTruthy sec)), ("is_httponly", PV.b (pvTruthy ho))]
  | _ => .error ()

def chromiumDownloadRow (browser : String) (row : List PV) : Except Unit Dict :=
  match row with
  | [cp, tp, st, et, rb, tb, state, dt, u] => do
    let stV ← pvTime chromeUsConv st
    let etV ← pvTime chromeUsConv et
    pure [("source", PV.s browser), ("url", u), ("current_path", cp),
          ("target_path", tp), ("start_time", stV), ("end_time", etV),
          ("received_bytes", rb), ("total_bytes", tb), ("state", state),
          ("danger_type", dt)]
  | _ => .error ()

def chromiumHistoryQuery : String :=
  "SELECT url, title, visit_count, last_visit_time, typed_count FROM urls"

def chromiumCookieQuery : String :=
  "SELECT name, value, host_key, path, expires_utc, last_access_utc, creation_utc, is_secure, is_httponly FROM cookies"

def chromiumDownloadQuery : String :=
  "SELECT current_path, target_path, start_time, end_time, received_bytes, total_bytes, state, danger_type, url FROM downloads"

/-- `extract_chrome_edge_artifacts` over the two fixed browser profile
roots. -/
def extract_chrome_edge_artifacts (fs : FS) (profile : String) :
    List Dict × List Dict × List Dict :=
  [("chrome", pathJoin profile "AppData/Local/Google/Chrome/User Data/Default"),
   ("edge", pathJoin profile "AppData/Local/Microsoft/Edge/User Data/Default")].foldl
    (fun acc bp =>
      let h := sqliteExtract fs (pathJoin bp.2 "History") chromiumHistoryQuery
        (chromiumHistoryRow bp.1)
      let c := sqliteExtract fs (pathJoin bp.2 "Cookies") chromiumCookieQuery
        (chromiumCookieRow bp.1)
      let d := sqliteExtract fs (pathJoin bp.2 "History") chromiumDownloadQuery
        (chromiumDownloadRow bp.1)
      (acc.1 ++ h, acc.2.1 ++ c, acc.2.2 ++ d)) ([], [], [])

/-- `b'URL '`. -/
def urlSig : Bytes := [85, 82, 76, 32]

def printableFilter (str : String) : String :=
  String.mk (str.data.filter fun c => decide (32 ≤ c.toNat) && decide (c.toNat ≤ 126))

/-- "Check if it looks like a URL". -/
def urlCheck (p : String) : Bool :=
  decide (p.data.length > 3) &&
    (strContains (lowerStr p) "http" || strContains (lowerStr p) "www." || strContains p ".")

/-- The candidate-offset URL probe of `_parse_index_dat`. -/
def ieProbeUrl (data : Bytes) (offset record_size : Nat) : List Nat → String
  | [] => ""
  | u :: rest =>
    if u < record_size then
      let url_start := offset + u
      let url_end :=
        match pyFind data [0] url_start (offset + record_size) with
        | some e => e
        | none => offset + record_size
      let potential := decodeAsciiIgnore (pyslice data url_start url_end)
      if urlCheck potential then potential else ieProbeUrl data offset record_size rest
    else ieProbeUrl data offset record_size rest

/-- The record-scan loop of `_parse_index_dat`: `URL ` signature, size
guard (below 64, beyond the remaining bytes, or above 8192 advances by 4),
two guarded FILETIMEs, probed URL with printable-character fallback. -/
def indexDatLoop (data : Bytes) : Nat → Nat → List Dict
  | 0, _ => []
  | fuel + 1, offset =>
    if offset < data.length - 64 then
      if pyslice data offset (offset + 4) == urlSig then
        let record_size := leNat (pyslice data (offset + 4) (offset + 8))
        if record_size < 64 || decide (record_size > data.length - offset) ||
            decide (record_size > 8192) then
          indexDatLoop data fuel (offset + 4)
        else
          let lm := leNat (pyslice data (offset + 8) (offset + 16))
          let la := leNat (pyslice data (offset + 16) (offset + 24))
          let probed := ieProbeUrl data offset record_size [52, 56, 60, 64]
          let url :=
            if !probed.data.isEmpty then probed
            else
              let url_start := offset + 52
              let url_end := min (offset + record_size) (url_start + 256)
              let filtered := printableFilter (decodeAsciiIgnore (pyslice data url_start url_end))
              if filtered.data.length < 3 then
                String.mk ("[Partial URL data at offset ".data ++ natChars offset ++ [']'])
              else filtered
          let recs :=
            if !url.data.isEmpty && decide (url.data.length > 1) then
              [[("source", PV.s "internet_explorer"),
                ("url", PV.s url),
                ("last_modified", optIso (filetimeConvGuarded lm)),
                ("last_accessed", optIso (filetimeConvGuarded la)),
                ("record_size", PV.n record_size)]]
            else []
          recs ++ indexDatLoop data fuel (offset + record_size)
      else indexDatLoop data fuel (offset + 4)
    else []

/-- `_parse_index_dat`. -/
def parse_index_dat (data : Bytes) : List Dict :=
  indexDatLoop data (data.length + 1) 0

/-- `extract_ie_artifacts`: the seven candidate locations, directory
probing for the two `.IE5` containers, history/cookies routing by path
substring. -/
def extract_ie_artifacts (fs : FS) (profile : String) : List Dict × List Dict :=
  let paths := [
    pathJoin profile "Local Settings/History/History.IE5/index.dat",
    pathJoin profile "Local Settings/Temporary Internet Files/Content.IE5/index.dat",
    pathJoin profile "Cookies/index.dat",
    pathJoin profile "Local Settings/History/index.dat",
    pathJoin profile "Local Settings/Temporary Internet Files/index.dat",
    pathJoin profile "Local Settings/History/History.IE5",
    pathJoin profile "Local Settings/Temporary Internet Files/Content.IE5"]
  paths.foldl (fun acc p =>
    if strEndsWith p "History.IE5" || strEndsWith p "Content.IE5" then
      (listDir fs p).foldl (fun acc2 e =>
        if lowerStr e.name == "index.dat" then
          match readFileBytes fs (pathJoin p e.name) with
          | none => acc2
          | some raw =>
            if raw.isEmpty then acc2
            else
              let parsed := parse_index_dat raw
              if strContains p "History.IE5" then (acc2.1 ++ parsed, acc2.2)
              else if strContains p "Content.IE5" then (acc2.1, acc2.2 ++ parsed)
              else acc2
        else acc2) acc
    else
      match readFileBytes fs p with
      | none => acc
      | some raw =>
        if raw.isEmpty then acc
        else
          let parsed := parse_index_dat raw
          if strContains p "History" then (acc.1 ++ parsed, acc.2)
          else if strContains p "Cookies" then (acc.1, acc.2 ++ parsed)
          else if strContains p "Content" then (acc.1, acc.2 ++ parsed)
          else acc) ([], [])

/-- `extract_all_browser_artifacts`: fold the three family extractors over
every profile (each family extractor is total, so the per-profile
`except` never fires), into the fixed nested result shape. -/
def extract_all_browser_artifacts (fs : FS) (profiles : List String) : Dict :=
  let acc := profiles.foldl (fun acc profile =>
    let ff := extract_firefox_artifacts fs profile
    let ce := extract_chrome_edge_artifacts fs profile
    let ie := extract_ie_artifacts fs profile
    (acc.1 ++ ff.1, acc.2.1 ++ ff.2.1, acc.2.2.1 ++ ff.2.2,
     acc.2.2.2.1 ++ ce.1, acc.2.2.2.2.1 ++ ce.2.1, acc.2.2.2.2.2.1 ++ ce.2.2,
     acc.2.2.2.2.2.2.1 ++ ie.1, acc.2.2.2.2.2.2.2 ++ ie.2))
    (([], [], [], [], [], [], [], []) :
      List Dict × List Dict × List Dict × List Dict × List Dict × List Dict ×
      List Dict × List Dict)
  [("firefox", PV.dict
     [("history", PV.list (acc.1.map PV.dict)),
      ("cookies", PV.list (acc.2.1.map PV.dict)),
      ("downloads", PV.list (acc.2.2.1.map PV.dict))]),
   ("chrome_edge", PV.dict
     [("history", PV.list (acc.2.2.2.1.map PV.dict)),
      ("cookies", PV.list (acc.2.2.2.2.1.map PV.dict)),
      ("downloads", PV.list (acc.2.2.2.2.2.1.map PV.dict))]),
   ("internet_explorer", PV.dict
     [("history", PV.list (acc.2.2.2.2.2.2.1.map PV.dict)),
      ("cookies", PV.list (acc.2.2.2.2.2.2.2.map PV.dict))])]

/-! ## `registry_artifacts.py` -/

/-- `codecs.decode(-, 'rot13')` on one character. -/
def rot13Char (c : Char) : Char :=
  if decide (97 ≤ c.toNat) && decide (c.toNat ≤ 122) then
    Char.ofNat (97 + (c.toNat - 97 + 13) % 26)
  else if decide (65 ≤ c.toNat) && decide (c.toNat ≤ 90) then
    Char.ofNat (65 + (c.toNat - 65 + 13) % 26)
  else c

/-- `codecs.decode(s, 'rot13')` (total: never raises on `str` input). -/
def rot13Str (str : String) : String := String.mk (str.data.map rot13Char)

def strCat (a b : String) : String := String.mk (a.data ++ b.data)

def splitCharAux (sep : Char) : List Char → List Char → List (List Char)
  | [], cur => [cur.reverse]
  | c :: rest, cur =>
    if c == sep then cur.reverse :: splitCharAux sep rest []
    else splitCharAux sep rest (c :: cur)

def splitOnChar (sep : Char) (str : String) : List String :=
  (splitCharAux sep str.data []).map String.mk

/-- `python-registry` subkey lookup (case-insensitive, as the registry is). -/
def regFindSubkey (k : RegKey) (n : String) : Option RegKey :=
  k.subkeys.find? (fun sk => lowerStr sk.name == lowerStr n)

/-- `reg.open(path)` walking backslash-separated components. -/
def regOpen (root : RegKey) (path : String) : Option RegKey :=
  (splitOnChar '\\' path).foldlM (fun k comp => regFindSubkey k comp) root

/-- `key.value(name)`: the payload, `none` models the raised lookup error. -/
def regValue (k : RegKey) (n : String) : Option PV :=
  (k.values.find? (fun v => lowerStr v.1 == lowerStr n)).map Prod.snd

/-- `load_registry_hive`: read the hive bytes (empty/missing is falsy) and
hand them to the `Registry` library oracle. -/
def loadRegistryHive (fs : FS) (path : String) : Option RegKey :=
  match readFileBytes fs path with
  | none => none
  | some raw => if raw.isEmpty then none else fs.hiveParse raw

/-- `f"ControlSet{n:03d}"`. -/
def controlSetName (n : Nat) : String :=
  if n < 1000 then
    String.mk ("ControlSet".data ++ [digitChar (n / 100), digitChar (n / 10), digitChar n])
  else strCat "ControlSet" (natStr n)

/-- `_find_current_control_set`: the `Select\Current` dword, with the
`ControlSet001` fallback on any failure (missing key/value or a payload the
format specifier rejects). -/
def findCurrentControlSet (reg : RegKey) : String :=
  match regOpen reg "Select" with
  | some sel =>
    match regValue sel "Current" with
    | some (PV.n cur) => controlSetName cur.toNat
    | _ => "ControlSet001"
  | none => "ControlSet001"

/-- One device-instance record of the `USBSTOR` walk. -/
def usbStorRecord (device_name : String) (inst : RegKey) : Dict :=
  let friendly := (regValue inst "FriendlyName").getD (PV.s "")
  let first_install := match inst.ts with
    | some dt => PV.s (pyIsoformat dt)
    | none => PV.null
  [("device_class", PV.s "USBSTOR"),
   ("device_name", PV.s device_name),
   ("instance_id", PV.s inst.name),
   ("friendly_name", friendly),
   ("first_install", first_install),
   ("last_arrival", PV.null),
   ("last_removal", PV.null)]

/-- One device-instance record of the `USB` walk. -/
def usbRecord (device_name : String) (inst : RegKey) : Dict :=
  let friendly := (regValue inst "FriendlyName").getD (PV.s "")
  let first_install := match inst.ts with
    | some dt => PV.s (pyIsoformat dt)
    | none => PV.null
  [("device_class", PV.s "USB"),
   ("device_name", PV.s device_name),
   ("instance_id", PV.s inst.name),
   ("friendly_name", friendly),
   ("first_install", first_install)]

/-- `extract_usb_history`: resolve the control set, walk `Enum\USBSTOR`
then `Enum\USB`, one record per (device, instance) pair. -/
def extract_usb_history (fs : FS) (system_hive_path : String) : List Dict :=
  match loadRegistryHive fs system_hive_path with
  | none => []
  | some reg =>
    let ccs := findCurrentControlSet reg
    let stor := match regOpen reg (strCat ccs "\\Enum\\USBSTOR") with
      | none => []
      | some k => k.subkeys.flatMap fun dev => dev.subkeys.map (usbStorRecord dev.name)
    let usb := match regOpen reg (strCat ccs "\\Enum\\USB") with
      | none => []
      | some k => k.subkeys.flatMap fun dev => dev.subkeys.map (usbRecord dev.name)
    stor ++ usb

/-- One UserAssist value: `.ok none` is a per-entry skip (short payload, or
a `str` payload whose byte-unpack raises inside the entry-level `try`);
`.error` is a payload on which `len()` itself raises, aborting the
remaining values of the GUID (caught only by the GUID-level `except`).
A 72-byte-or-larger payload uses the Windows-7+ layout (count at 4,
FILETIME at 60), a 16..71-byte payload the XP layout (count at 4, FILETIME
at 8); the FILETIME conversion is unguarded, so an out-of-range value
skips the entry. -/
def uaEntry (guid vname : String) (vdata : PV) : Except Unit (Option Dict) :=
  match vdata with
  | PV.bytes payload =>
    .ok (if payload.length ≥ 16 then
      let rc := leNat (pyslice payload 4 8)
      let lrt := if payload.length ≥ 72 then leNat (pyslice payload 60 68)
                 else leNat (pyslice payload 8 16)
      match filetimeConv lrt with
      | .ok o => some [("guid", PV.s guid),
                       ("program", PV.s (rot13Str vname)),
                       ("run_count", PV.n rc),
                       ("last_run", optIso o)]
      | .error _ => none
    else none)
  | PV.s _ => .ok none
  | _ => .error ()

def uaGuidEntries (guid : String) : List (String × PV) → List Dict
  | [] => []
  | (vn, vd) :: rest =>
    match uaEntry guid vn vd with
    | .ok (some d) => d :: uaGuidEntries guid rest
    | .ok none => uaGuidEntries guid rest
    | .error _ => []

/-- `extract_userassist`: the two candidate UserAssist key paths, then the
per-GUID `Count` subkeys with ROT13-decoded value names. -/
def extract_userassist (fs : FS) (ntuser_path : String) : List Dict :=
  match loadRegistryHive fs ntuser_path with
  | none => []
  | some reg =>
    let ua :=
      match regOpen reg "Software\\Microsoft\\Windows\\CurrentVersion\\Explorer\\UserAssist" with
      | some k => some k
      | none => regOpen reg "Microsoft\\Windows\\CurrentVersion\\Explorer\\UserAssist"
    match ua with
    | none => []
    | some uak =>
      uak.subkeys.flatMap fun guid_key =>
        match regFindSubkey guid_key "Count" with
        | none => []
        | some count_key => uaGuidEntries guid_key.name count_key.values

/-- The key under which `extract_installed_programs` stores each value:
`value_name.lower().replace("display", "display_")`.  Note that only the
two `Display*` names contain the substring, so `InstallDate` and friends
land under keys (`installdate`, ...) distinct from the pre-initialized
underscore keys. -/
def ipKeyFor (vname : String) : String :=
  String.mk (replaceAllSub "display".data "display_".data (lowerStr vname).data)

def installedProgramNames : List String :=
  ["DisplayName", "DisplayVersion", "Publisher", "InstallDate",
   "InstallLocation", "UninstallString", "EstimatedSize"]

/-- The per-program record of `extract_installed_programs`: the fixed
pre-initialized shape, registry values written under `ipKeyFor` keys, kept
only when `display_name` is truthy. -/
def installedProgramRecord (pk : RegKey) : Option Dict :=
  let init : Dict :=
    [("registry_key", PV.s pk.name), ("display_name", PV.s ""),
     ("display_version", PV.s ""), ("publisher", PV.s ""),
     ("install_date", PV.s ""), ("install_location", PV.s ""),
     ("uninstall_string", PV.s ""), ("estimated_size", PV.n 0)]
  let filled := installedProgramNames.foldl (fun d vn =>
    match regValue pk vn with
    | some v => dictSet d (ipKeyFor vn) v
    | none => d) init
  if pvTruthy ((dictGet filled "display_name").getD PV.null) then some filled else none

def installedProgramsFrom (reg : RegKey) (upath : String) : List Dict :=
  match regOpen reg upath with
  | none => []
  | some uk => uk.subkeys.filterMap installedProgramRecord

/-- `extract_installed_programs` over the two Uninstall locations. -/
def extract_installed_programs (fs : FS) (software_hive_path : String) : List Dict :=
  match loadRegistryHive fs software_hive_path with
  | none => []
  | some reg =>
    installedProgramsFrom reg "Microsoft\\Windows\\CurrentVersion\\Uninstall" ++
      installedProgramsFrom reg "Wow6432Node\\Microsoft\\Windows\\CurrentVersion\\Uninstall"

def systemRunPaths : List String :=
  ["Microsoft\\Windows\\CurrentVersion\\Run",
   "Microsoft\\Windows\\CurrentVersion\\RunOnce",
   "Microsoft\\Windows\\CurrentVersion\\RunServices",
   "Microsoft\\Windows\\CurrentVersion\\RunServicesOnce",
   "Wow6432Node\\Microsoft\\Windows\\CurrentVersion\\Run",
   "Wow6432Node\\Microsoft\\Windows\\CurrentVersion\\RunOnce"]

def userRunPaths : List String :=
  ["Software\\Microsoft\\Windows\\CurrentVersion\\Run",
   "Software\\Microsoft\\Windows\\CurrentVersion\\RunOnce"]

def runKeyEntries (reg : RegKey) (hiveLabel : String) (paths : List String)
    (typ : String) : List Dict :=
  paths.flatMap fun rp =>
    match regOpen reg rp with
    | none => []
    | some rk => rk.values.map fun v =>
      [("hive", PV.s hiveLabel), ("key_path", PV.s rp),
       ("name", PV.s v.1), ("value", v.2), ("type", PV.s typ)]

/-- `extract_run_keys`: six system-wide locations in SOFTWARE plus two
per-user locations per NTUSER hive, every value emitted verbatim. -/
def extract_run_keys (fs : FS) (software_hive_path : String)
    (ntuser_paths : List String) : List Dict :=
  (match loadRegistryHive fs software_hive_path with
   | none => []
   | some reg => runKeyEntries reg "SOFTWARE" systemRunPaths "system") ++
  ntuser_paths.flatMap fun np =>
    match loadRegistryHive fs np with
    | none => []
    | some reg => runKeyEntries reg np userRunPaths "user"

/-- `extract_last_logged_user`: single Winlogon key read. -/
def extract_last_logged_user (fs : FS) (software_hive_path : String) : Dict :=
  match loadRegistryHive fs software_hive_path with
  | none => []
  | some reg =>
    match regOpen reg "Microsoft\\Windows NT\\CurrentVersion\\Winlogon" with
    | none => []
    | some lk =>
      ["DefaultUserName", "DefaultDomainName", "LastUsedUsername"].foldl (fun d vn =>
        match regValue lk vn with
        | some v => dictSet d (lowerStr vn) v
        | none => d) []

def tzValueNames : List String :=
  ["TimeZoneKeyName", "StandardName", "DaylightName", "Bias", "StandardBias", "DaylightBias"]

/-- `extract_timezone_info`: the TimeZoneInformation key of the active
control set. -/
def extract_timezone_info (fs : FS) (system_hive_path : String) : Dict :=
  match loadRegistryHive fs system_hive_path with
  | none => []
  | some reg =>
    let ccs := findCurrentControlSet reg
    match regOpen reg (strCat ccs "\\Control\\TimeZoneInformation") with
    | none => []
    | some tk =>
      tk.values.foldl (fun d v =>
        if tzValueNames.contains v.1 then dictSet d (lowerStr v.1) v.2 else d) []

def strIsDigits (str : String) : Bool :=
  !str.data.isEmpty && str.data.all isDigitChar

/-- `extract_network_info`: adapter-class subkeys with numeric names plus
the Tcpip parameters. -/
def extract_network_info (fs : FS) (system_hive_path : String) : Dict :=
  match loadRegistryHive fs system_hive_path with
  | none => []
  | some reg =>
    let ccs := findCurrentControlSet reg
    let adapters :=
      match regOpen reg
        (strCat ccs "\\Control\\Class\\\x7b4D36E972-E325-11CE-BFC1-08002BE10318\x7d") with
      | none => []
      | some ak => ak.subkeys.filterMap fun adp =>
        if strIsDigits adp.name then
          let info := ["DriverDesc", "DriverVersion", "DriverDate",
              "NetCfgInstanceId"].foldl (fun d vn =>
            match regValue adp vn with
            | some v => dictSet d (lowerStr vn) v
            | none => d) []
          if !info.isEmpty then some (PV.dict info) else none
        else none
    let tcp :=
      match regOpen reg (strCat ccs "\\Services\\Tcpip\\Parameters") with
      | none => []
      | some tk =>
        tk.values.foldl (fun d v =>
          if ["Hostname", "Domain", "DhcpDomain", "SearchList"].contains v.1 then
            dictSet d (lowerStr v.1) v.2
          else d) []
    [("network_adapters", PV.list adapters),
     ("tcp_parameters", PV.dict tcp),
     ("wireless_networks", PV.list [])]

/-- The pre-initialized (all-empty) registry result shape. -/
def emptyRegistryArtifacts : Dict :=
  [("usb_history", PV.list []), ("userassist", PV.list []),
   ("installed_programs", PV.list []), ("run_keys", PV.list []),
   ("last_logged_user", PV.dict []), ("timezone_info", PV.dict []),
   ("network_info", PV.dict [])]

/-- `extract_all_registry_artifacts`: every sub-extractor handles its own
failures (a hive that fails to load yields that sub-artifact empty), so
the surrounding `try` never aborts the remaining sub-artifacts. -/
def extract_all_registry_artifacts (fs : FS) (system_hive software_hive : String)
    (ntuser_paths : List String) : Dict :=
  [("usb_history", PV.list ((extract_usb_history fs system_hive).map PV.dict)),
   ("userassist", PV.list ((ntuser_paths.flatMap (extract_userassist fs)).map PV.dict)),
   ("installed_programs", PV.list ((extract_installed_programs fs software_hive).map PV.dict)),
   ("run_keys", PV.list ((extract_run_keys fs software_hive ntuser_paths).map PV.dict)),
   ("last_logged_user", PV.dict (extract_last_logged_user fs software_hive)),
   ("timezone_info", PV.dict (extract_timezone_info fs system_hive)),
   ("network_info", PV.dict (extract_network_info fs system_hive))]

/-! ## `forensic_extractor.py` (orchestrator) -/

/-- A partition-table entry as `pytsk3.Volume_Info` exposes it. -/
structure Partition where
  start : Nat
  desc : String

/-- One extraction run's world: the image (partition table plus whether the
image segments open at all), the mounted filesystem view, and the wall
clock. -/
structure World where
  imageOk : Bool
  imagePath : String
  partitions : List Partition
  fs : FS
  now : String

/-- `_find_ntfs_partition`: first partition whose description contains
`NTFS` (uppercased) or `0x07`; the chosen byte offset is `start * 512`. -/
def findNtfsPartition (parts : List Partition) : Option Nat :=
  (parts.find? fun p =>
    strContains (upperStr p.desc) "NTFS" || strContains p.desc "0x07").map
    (fun p => p.start * 512)

/-- `discover_user_profiles`: both well-known roots, excluding the
non-user aliases (`.`/`..` are already excluded by the listing model). -/
def discover_user_profiles (fs : FS) : List String :=
  ["/Documents and Settings", "/Users"].flatMap fun bp =>
    (listDir fs bp).filterMap fun e =>
      if ["All Users", "Default User", "Public", "Default"].contains e.name then none
      else some (pathJoin bp e.name)

/-- The orchestrator's `extract_registry_artifacts`: fixed hive paths and
per-profile `NTUSER.DAT` paths. -/
def orchExtractRegistry (fs : FS) : Dict :=
  extract_all_registry_artifacts fs "/Windows/System32/config/SYSTEM"
    "/Windows/System32/config/SOFTWARE"
    ((discover_user_profiles fs).map fun p => pathJoin p "NTUSER.DAT")

def nestedLen (d : Dict) (k1 k2 : String) : Nat :=
  match dictGet d k1 with
  | some (.dict inner) => pvLen (dictGet inner k2)
  | _ => 0

def nested2Len (d : Dict) (k1 k2 k3 : String) : Nat :=
  match dictGet d k1 with
  | some (.dict inner) => nestedLen inner k2 k3
  | _ => 0

/-- `_generate_summary` over the aggregated artifact document. -/
def generate_summary (artifacts : Dict) (now : String) : Dict :=
  let browserSum (k : String) : Nat :=
    nested2Len artifacts "browser_artifacts" "firefox" k +
    nested2Len artifacts "browser_artifacts" "chrome_edge" k +
    nested2Len artifacts "browser_artifacts" "internet_explorer" k
  [("total_browser_history", PV.n (browserSum "history")),
   ("total_browser_cookies", PV.n (browserSum "cookies")),
   ("total_browser_downloads", PV.n (browserSum "downloads")),
   ("total_usb_devices", PV.n (nestedLen artifacts "registry_artifacts" "usb_history")),
   ("total_userassist_entries", PV.n (nestedLen artifacts "registry_artifacts" "userassist")),
   ("total_installed_programs", PV.n (nestedLen artifacts "registry_artifacts" "installed_programs")),
   ("total_run_keys", PV.n (nestedLen artifacts "registry_artifacts" "run_keys")),
   ("total_deleted_files", PV.n (nestedLen artifacts "recycle_bin_artifacts" "deleted_files")),
   ("total_event_log_entries", PV.n (nestedLen artifacts "event_log_artifacts" "all_events")),
   ("total_prefetch_files", PV.n (nestedLen artifacts "filesystem_artifacts" "prefetch_files")),
   ("total_link_files", PV.n (nestedLen artifacts "filesystem_artifacts" "link_files")),
   ("extraction_timestamp", PV.s now)]

/-- `extract_all_artifacts`: `open_image` failing (image segments that do
not open, or no NTFS partition) returns `None` — no partial document;
otherwise the five category extractors run and the document plus summary
is assembled. -/
def extract_all_artifacts (w : World) : Option Dict :=
  if !w.imageOk then none
  else
    match findNtfsPartition w.partitions with
    | none => none
    | some ntfs_offset =>
      let fs := w.fs
      let user_profiles := discover_user_profiles fs
      let d : Dict :=
        [("extraction_info", PV.dict
           [("image_path", PV.s w.imagePath),
            ("extraction_time", PV.s w.now),
            ("ntfs_offset", PV.n ntfs_offset),
            ("user_profiles", PV.list (user_profiles.map PV.s))]),
         ("browser_artifacts", PV.dict (extract_all_browser_artifacts fs user_profiles)),
         ("registry_artifacts", PV.dict (orchExtractRegistry fs)),
         ("recycle_bin_artifacts", PV.dict (extract_all_recycle_bin_artifacts fs)),
         ("event_log_artifacts", PV.dict (extract_all_event_log_artifacts fs)),
         ("filesystem_artifacts", PV.dict (extract_all_filesystem_artifacts fs))]
      some (dictSet d "summary" (PV.dict (generate_summary d w.now)))

/-! ## Concrete sample inputs (for witnesses and counterexamples) -/

/-- Little-endian encodings used to build sample byte strings. -/
def w16 (n : Nat) : Bytes := [n % 256, n / 256 % 256]

def w32 (n : Nat) : Bytes := [n % 256, n / 256 % 256, n / 65536 % 256, n / 16777216 % 256]

def w64 (n : Nat) : Bytes := w32 (n % 4294967296) ++ w32 (n / 4294967296)

/-- One well-formed 800-byte INFO2 record: filename `ab`, record 7, drive
2 (`C`), deletion FILETIME 1000s past the unix epoch, size 123. -/
def info2SampleRecord : Bytes :=
  w16 97 ++ w16 98 ++ List.replicate 516 0 ++
    w32 7 ++ w32 2 ++ w64 116444746000000000 ++ w32 123 ++ List.replicate 260 0

/-- A LNK sample: valid signature, only `HasArguments` (0x20) among the
header flags, arguments string `ab`. -/
def lnkOnlyArgs : Bytes :=
  [76, 0, 0, 0] ++ List.replicate 16 0 ++ w32 32 ++ List.replicate 52 0 ++
    w16 2 ++ w16 97 ++ w16 98

/-- A 148-byte prefetch sample: `MAM\x04` signature, version 0x17,
executable name `CA` at offset 84 (length 8), FILETIME at 120, run count 5
at 144. -/
def pfV17Sample : Bytes :=
  [77, 65, 77, 4] ++ w32 0x17 ++ List.replicate 8 0 ++
    w32 84 ++ w32 8 ++ List.replicate 60 0 ++
    (w16 67 ++ w16 65 ++ w16 0 ++ w16 0) ++ List.replicate 28 0 ++
    w64 116444746000000000 ++ List.replicate 16 0 ++ w32 5

/-- A 160-byte prefetch sample: `MAM\x04` signature, version 0x1A,
executable name `CA` at offset 84, one nonzero timestamp slot, run count 9
at 152. -/
def pfV1ASample : Bytes :=
  [77, 65, 77, 4] ++ w32 0x1A ++ List.replicate 8 0 ++
    w32 84 ++ w32 8 ++ List.replicate 60 0 ++
    (w16 67 ++ w16 65 ++ w16 0 ++ w16 0) ++ List.replicate 36 0 ++
    w64 116444746000000000 ++ List.replicate 16 0 ++ w32 9

/-- A minimal valid `$I` metadata payload (24 header bytes plus UTF-16
filename `f`). -/
def vistaInfoSample : Bytes := w64 24 ++ w64 116444746000000000 ++ w64 42 ++ w16 102

/-- A directory holding one orphaned metadata file `$I1234` and the file
content behind it: the `$R1234` data file is absent. -/
def fsOrphanI : FS :=
  { files := [("/bin/$I1234", vistaInfoSample)]
    dirs := [("/bin", [⟨"$I1234", true, 24, 0, 0, 0⟩])]
    hiveParse := fun _ => none
    sqliteQuery := fun _ _ => none }

/-- A SOFTWARE hive with one installed program whose registry `InstallDate`
is the raw string `20200315`. -/
def softwareHiveInstall : RegKey :=
  .mk "ROOT" [] [
    .mk "Microsoft" [] [
      .mk "Windows" [] [
        .mk "CurrentVersion" [] [
          .mk "Uninstall" [] [
            .mk "App1"
              [("DisplayName", PV.s "App One"), ("InstallDate", PV.s "20200315")]
              [] none] none] none] none] none] none

def fsInstallDate : FS :=
  { files := [("/sw", [9])]
    dirs := []
    hiveParse := fun b => if b == [9] then some softwareHiveInstall else none
    sqliteQuery := fun _ _ => none }

/-- A SOFTWARE hive carrying one `Run` autorun value. -/
def softwareHiveRun : RegKey :=
  .mk "ROOT" [] [
    .mk "Microsoft" [] [
      .mk "Windows" [] [
        .mk "CurrentVersion" [] [
          .mk "Run" [("Updater", PV.s "C:\\up.exe")] [] none] none] none] none] none

/-- The C3 scenario: an image with an NTFS partition, a SYSTEM hive whose
bytes (`[1]`) fail to load (corrupted) and a SOFTWARE hive (`[2]`) that
loads with one Run value. -/
def fsCorruptSystem : FS :=
  { files := [("/Windows/System32/config/SYSTEM", [1]),
              ("/Windows/System32/config/SOFTWARE", [2])]
    dirs := []
    hiveParse := fun b => if b == [2] then some softwareHiveRun else none
    sqliteQuery := fun _ _ => none }

def worldCorruptSystem : World :=
  { imageOk := true
    imagePath := "img.E01"
    partitions := [⟨128, "NTFS (0x07)"⟩]
    fs := fsCorruptSystem
    now := "2026-01-01T00:00:00" }

/-- A world whose partition table has no NTFS-typed entry. -/
def worldNoNtfs : World :=
  { imageOk := true
    imagePath := "img.E01"
    partitions := [⟨0, "Linux (0x83)"⟩, ⟨64, "Swap"⟩]
    fs := fsCorruptSystem
    now := "2026-01-01T00:00:00" }

/-- The empty filesystem: every artifact is absent. -/
def emptyFS : FS :=
  { files := [], dirs := [], hiveParse := fun _ => none, sqliteQuery := fun _ _ => none }

/-- A synthetic legacy event-log file: 48-byte header (signature `LfLe`,
header size 48) followed by one 90-byte record (id 528, source `Sec`,
computer `PC`, strings `alice`, `DOM`). -/
def evtHeaderSample : Bytes :=
  [76, 102, 76, 101, 48, 0, 0, 0] ++ List.replicate 8 0 ++ w32 1 ++ w32 2 ++
    List.replicate 24 0

def evtRecordSample : Bytes :=
  [76, 102, 76, 101] ++ w32 90 ++ w32 5 ++ w32 1000 ++ w32 1001 ++ w32 528 ++
    w16 4 ++ w16 2 ++ w16 0 ++ List.replicate 6 0 ++ w32 70 ++ w32 0 ++ w32 0 ++
    w32 0 ++ w32 0 ++
    (w16 83 ++ w16 101 ++ w16 99 ++ w16 0) ++ (w16 80 ++ w16 67 ++ w16 0) ++
    (w16 97 ++ w16 108 ++ w16 105 ++ w16 99 ++ w16 101 ++ w16 0) ++
    (w16 68 ++ w16 79 ++ w16 77 ++ w16 0)

def evtSample : Bytes := evtHeaderSample ++ evtRecordSample

/-- An EVT buffer whose signature check must skip: `LfLe` with a declared
record length of 100 but only 28 bytes of data. -/
def evtOversized : Bytes := [76, 102, 76, 101] ++ w32 100 ++ List.replicate 20 0

/-- An index.dat buffer with a `URL ` record whose declared size 200
exceeds the 80 remaining bytes. -/
def ieOversized : Bytes := [85, 82, 76, 32] ++ w32 200 ++ List.replicate 72 0

/-- A LNK string-data region declaring 100 UTF-16 characters with only 4
bytes present. -/
def lnkShortString : Bytes := List.replicate 10 0 ++ w16 100 ++ w16 97

/-- The largest FILETIME whose converted value `datetime.fromtimestamp`
still accepts (9999-12-31T23:59:59(.99...) in ticks). -/
def maxValidFiletime : Nat := 116444736000000000 + 10000000 * 253402300800 - 1

/-- The invariant the spec states for a record's timestamp field: a valid
ISO-8601 instant string, or explicitly null. -/
def isTimestampValue (v : PV) : Prop :=
  v = PV.null ∨ ∃ str, v = PV.s str ∧ isIso8601Instant str = true

/-! # Lemmas and claim theorems -/

theorem isDigitChar_digitChar (n : Nat) : isDigitChar (digitChar n) = true := by
  have h10 : n % 10 = 0 ∨ n % 10 = 1 ∨ n % 10 = 2 ∨ n % 10 = 3 ∨ n % 10 = 4 ∨
      n % 10 = 5 ∨ n % 10 = 6 ∨ n % 10 = 7 ∨ n % 10 = 8 ∨ n % 10 = 9 := by omega
  unfold digitChar
  rcases h10 with h' | h' | h' | h' | h' | h' | h' | h' | h' | h' <;> rw [h'] <;> rfl

/-- Every string `datetime.isoformat()` can produce passes the ISO-8601
instant shape check. -/
theorem isoformat_isIso (dt : PyDatetime) : isIso8601Instant (pyIsoformat dt) = true := by
  unfold pyIsoformat isoformatChars pad4c pad2c pad6c
  by_cases h : dt.usec = 0 <;>
    simp [h, isIso8601Instant, isoTail, isDigitChar_digitChar]

/-- **C1** (corrected).  The shared FILETIME conversion: zero maps to null;
for every `t` from the epoch constant up to the last convertible tick the
result is defined with unix seconds exactly `(t - 116444736000000000) /
10_000_000`, the original `t` lies inside the 100ns-tick bucket the result
determines (reversibility), and the conversion is monotone.  (The claim's
assertion that every `t` below the epoch constant maps to null is false:
see the counterexample.) -/
theorem C1_filetime_conversion :
    (filetimeConv 0 = .ok none) ∧
    (∀ t : Nat, 116444736000000000 ≤ t → t ≤ maxValidFiletime →
      filetimeConv t = .ok (some
        ⟨(((t - 116444736000000000) / 10000000 : Nat) : Int),
         ((t - 116444736000000000) % 10000000) / 10⟩) ∧
      116444736000000000 + 10000000 * ((t - 116444736000000000) / 10000000) ≤ t ∧
      t < 116444736000000000 + 10000000 * ((t - 116444736000000000) / 10000000 + 1)) ∧
    (∀ t1 t2 : Nat, 116444736000000000 ≤ t1 → t1 ≤ t2 →
      (t1 - 116444736000000000) / 10000000 ≤ (t2 - 116444736000000000) / 10000000) := by
  refine ⟨rfl, ?_, ?_⟩
  · intro t h1 h2
    have hmax : t - 116444736000000000 < 253402300800 * 10000000 := by
      unfold maxValidFiletime at h2; omega
    have hsec : (t - 116444736000000000) / 10000000 < 253402300800 :=
      (Nat.div_lt_iff_lt_mul (by norm_num)).mpr hmax
    have hdm := Nat.div_add_mod (t - 116444736000000000) 10000000
    have hmod : (t - 116444736000000000) % 10000000 < 10000000 :=
      Nat.mod_lt _ (by norm_num)
    refine ⟨?_, by omega, by omega⟩
    have ht0 : t > 0 := by omega
    have hcast : (t : Int) - 116444736000000000 = ((t - 116444736000000000 : Nat) : Int) := by
      omega
    have hdiv : ((t : Int) - 116444736000000000) / 10000000 =
        (((t - 116444736000000000) / 10000000 : Nat) : Int) := by
      rw [hcast]; push_cast; rfl
    have hemod : ((t : Int) - 116444736000000000) % 10000000 =
        (((t - 116444736000000000) % 10000000 : Nat) : Int) := by
      rw [hcast]; push_cast; rfl
    have hin : minTs ≤ (((t - 116444736000000000) / 10000000 : Nat) : Int) ∧
        (((t - 116444736000000000) / 10000000 : Nat) : Int) ≤ maxTs := by
      constructor
      · have h0 : (0 : Int) ≤ (((t - 116444736000000000) / 10000000 : Nat) : Int) :=
          Int.natCast_nonneg _
        unfold minTs; omega
      · have hle : (t - 116444736000000000) / 10000000 ≤ 253402300799 := by omega
        unfold maxTs
        exact_mod_cast hle
    unfold filetimeConv pyFromtimestamp FILETIME_EPOCH
    rw [if_pos ht0]
    simp only [hdiv, hemod, if_pos hin]
    have husec : (((((t - 116444736000000000) % 10000000 : Nat) : Int)) / 10).toNat =
        (t - 116444736000000000) % 10000000 / 10 := by
      push_cast
      exact Int.toNat_natCast _
    rw [husec]
  · intro t1 t2 h1 h12
    exact Nat.div_le_div_right (Nat.sub_le_sub_right h12 _)

/-- Witness for C1: the epoch itself converts to unix second 0 and
1000 seconds past it to 1000, with all hypotheses discharged concretely. -/
theorem C1_filetime_conversion_witness :
    filetimeConv 116444746000000000 = .ok (some ⟨1000, 0⟩) ∧
    filetimeConv 0 = .ok none ∧
    (116444736000000000 - 116444736000000000) / 10000000 ≤
      (116444746000000000 - 116444736000000000) / 10000000 := by
  refine ⟨?_, C1_filetime_conversion.1,
    C1_filetime_conversion.2.2 116444736000000000 116444746000000000 (by norm_num) (by norm_num)⟩
  have h := (C1_filetime_conversion.2.1 116444746000000000 (by norm_num)
    (by unfold maxValidFiletime; norm_num)).1
  simpa using h

/-- **C1** counterexample: `t = 116444735990000000` is nonzero and below
the epoch constant (a negative delta), yet the conversion yields the
instant `1969-12-31T23:59:59` (unix second −1) — a negative timestamp, not
null. -/
theorem C1_negative_delta_counterexample :
    (116444735990000000 : Nat) ≠ 0 ∧
    (116444735990000000 : Nat) < 116444736000000000 ∧
    filetimeConvGuarded 116444735990000000 = some ⟨-1, 0⟩ ∧
    filetimeConv 116444735990000000 = .ok (some ⟨-1, 0⟩) ∧
    pyIsoformat ⟨-1, 0⟩ = "1969-12-31T23:59:59" := by
  refine ⟨by norm_num, by norm_num, rfl, rfl, rfl⟩

theorem pyslice_append_exact (pre rest : Bytes) (k : Nat) :
    pyslice (pre ++ rest) pre.length (pre.length + k) = rest.take k := by
  unfold pyslice
  rw [List.take_append_eq_append_take, List.take_of_length_le (by omega),
    Nat.add_sub_cancel_left]
  exact List.drop_left pre (rest.take k)

theorem flatten_length_const (recs : List Bytes) (c : Nat)
    (hr : ∀ r ∈ recs, r.length = c) : recs.flatten.length = c * recs.length := by
  induction recs with
  | nil => simp
  | cons r rs ih =>
    have h1 : r.length = c := hr r (by simp)
    have h2 := ih (fun x hx => hr x (by simp [hx]))
    simp [h1, h2]
    ring

theorem info2Loop_flatten (recs : List Bytes) (pre tail : Bytes) (fuel : Nat)
    (hr : ∀ r ∈ recs, r.length = 800) (ht : tail.length < 800)
    (hf : recs.length ≤ fuel) :
    info2Loop (pre ++ recs.flatten ++ tail) fuel pre.length = recs.map info2Record := by
  induction recs generalizing pre fuel with
  | nil =>
    cases fuel with
    | zero => rfl
    | succ f =>
      simp only [info2Loop, List.flatten_nil, List.append_nil, List.map_nil]
      rw [if_neg]
      simp only [List.length_append]
      omega
  | cons r rs ih =>
    cases fuel with
    | zero => simp at hf
    | succ f =>
      have hr800 : r.length = 800 := hr r (by simp)
      have hassoc : pre ++ (r :: rs).flatten ++ tail = pre ++ (r ++ (rs.flatten ++ tail)) := by
        simp
      have hlen : (pre ++ (r :: rs).flatten ++ tail).length =
          pre.length + 800 + rs.flatten.length + tail.length := by
        simp [hr800]
        omega
      simp only [info2Loop]
      rw [if_pos (by omega)]
      have hslice : pyslice (pre ++ (r :: rs).flatten ++ tail) pre.length (pre.length + 800) = r := by
        rw [hassoc, pyslice_append_exact, List.take_append_eq_append_take,
          List.take_of_length_le (by omega)]
        simp [hr800]
      rw [hslice]
      have hassoc2 : pre ++ (r :: rs).flatten ++ tail = (pre ++ r) ++ rs.flatten ++ tail := by
        simp
      have hoff : pre.length + 800 = (pre ++ r).length := by simp [hr800]
      rw [List.map_cons]
      congr 1
      rw [hassoc2, hoff]
      exact ih (pre ++ r) f (fun x hx => hr x (by simp [hx])) (by simp at hf; omega)

theorem parse_info2_file_some (data : Bytes) :
    parse_info2_file (some data) =
      if data.isEmpty then []
      else if data.length < 20 then []
      else info2Loop data data.length 20 := rfl

/-- **C5** (confirmed).  An INFO2 file made of a 20-byte header, `N`
well-formed 800-byte records and any truncated trailing fragment parses to
exactly the `N` per-record results (each taken from its fixed 800-byte
slot, so filenames and deletion timestamps match the corresponding input
record); the fragment contributes nothing, and iteration is by fixed
800-byte strides (never a scan). -/
theorem C5_info2_record_count (header : Bytes) (recs : List Bytes) (tail : Bytes)
    (hh : header.length = 20) (hr : ∀ r ∈ recs, r.length = 800)
    (ht : tail.length < 800) :
    parse_info2_file (some (header ++ recs.flatten ++ tail)) = recs.map info2Record ∧
    (parse_info2_file (some (header ++ recs.flatten ++ tail))).length = recs.length := by
  have hflat : recs.flatten.length = 800 * recs.length := flatten_length_const recs 800 hr
  have hlen : (header ++ recs.flatten ++ tail).length =
      20 + 800 * recs.length + tail.length := by
    simp [hh, hflat]
    omega
  have hne : (header ++ recs.flatten ++ tail).isEmpty = false := by
    rw [List.isEmpty_eq_false_iff_exists_mem]
    rcases header with _ | ⟨b, bs⟩
    · simp at hh
    · exact ⟨b, by simp⟩
  have hmain : parse_info2_file (some (header ++ recs.flatten ++ tail)) =
      recs.map info2Record := by
    rw [parse_info2_file_some, hne]
    simp only [Bool.false_eq_true, if_false]
    rw [if_neg (by omega)]
    have h20 : (20 : Nat) = header.length := hh.symm
    rw [h20]
    exact info2Loop_flatten recs header tail _ hr ht (by omega)
  exact ⟨hmain, by rw [hmain]; simp⟩

/-- Witness for C5: one concrete record plus a 3-byte truncated tail
parses to exactly that record's result. -/
theorem C5_info2_record_count_witness :
    parse_info2_file (some (List.replicate 20 0 ++ [info2SampleRecord].flatten ++ [1, 2, 3])) =
      [info2Record info2SampleRecord] := by
  have h := (C5_info2_record_count (List.replicate 20 0) [info2SampleRecord] [1, 2, 3]
    (by simp) (by intro r hrr; simp at hrr; subst hrr; decide) (by simp)).1
  simpa using h

theorem parse_evt_file_some (data : Bytes) :
    parse_evt_file (some data) =
      if data.isEmpty then []
      else if data.length < 48 then []
      else
        match
          (if evtSigOk (pyslice data 0 4) then some data
           else
             match findEvtSig data 129 0 with
             | some i => some (data.drop i)
             | none => none) with
        | none => []
        | some d2 =>
          match unpackLE 4 d2 4, unpackLE 4 d2 16, unpackLE 4 d2 20 with
          | some header_size, some _, some _ => evtLoop d2 d2.length header_size
          | _, _, _ => [] := rfl

theorem findEvtSig_succ (data : Bytes) (fuel i : Nat) :
    findEvtSig data (fuel + 1) i =
      if i < min 512 (data.length - 4) then
        if evtSigOk (pyslice data i (i + 4)) then some i
        else findEvtSig data fuel (i + 4)
      else none := rfl

theorem findEvtSig_sound (data : Bytes) (fuel : Nat) :
    ∀ i j, findEvtSig data fuel i = some j →
      i ≤ j ∧ j < 512 ∧ evtSigOk (pyslice data j (j + 4)) = true := by
  induction fuel with
  | zero => intro i j h; exact absurd h (by simp [findEvtSig])
  | succ f ih =>
    intro i j h
    rw [findEvtSig_succ] at h
    by_cases hc : i < min 512 (data.length - 4)
    · rw [if_pos hc] at h
      by_cases hs : evtSigOk (pyslice data i (i + 4)) = true
      · rw [if_pos hs] at h
        cases h
        exact ⟨le_refl _, by omega, hs⟩
      · rw [if_neg hs] at h
        have := ih (i + 4) j h
        exact ⟨by omega, this.2.1, this.2.2⟩
    · rw [if_neg hc] at h
      cases h

theorem findEvtSig_none (data : Bytes)
    (hno : ∀ j, evtSigOk (pyslice data j (j + 4)) = false) :
    ∀ fuel i, findEvtSig data fuel i = none := by
  intro fuel
  induction fuel with
  | zero => intro i; rfl
  | succ f ih =>
    intro i
    rw [findEvtSig_succ]
    by_cases hc : i < min 512 (data.length - 4)
    · rw [if_pos hc, hno i, ih (i + 4)]
      rfl
    · rw [if_neg hc]

theorem pyslice_replicate_zero_head (data : Bytes) (i k : Nat) (h : i + k ≤ 16) :
    pyslice (List.replicate 16 (0 : Nat) ++ data) i (i + k) = List.replicate k 0 := by
  unfold pyslice
  rw [List.take_append_eq_append_take, List.take_replicate, List.length_replicate]
  have h1 : min (i + k) 16 = i + k := by omega
  have h2 : i + k - 16 = 0 := by omega
  rw [h1, h2, List.take_zero, List.append_nil, List.drop_replicate]
  congr 1
  omega

theorem evtSigOk_replicate_zero (k : Nat) : evtSigOk (List.replicate k 0) = false := by
  rcases k with _ | k
  · rfl
  · simp [evtSigOk, List.replicate_succ]

theorem drop_append_len (l1 l2 : Bytes) (n : Nat) (h : l1.length = n) :
    (l1 ++ l2).drop n = l2 := by
  subst h
  exact List.drop_left l1 l2

/-- **C6** (confirmed).  `parse_evt_file`: (i) a signature located by the
bounded forward scan always lies within the first 512 bytes (the scan
probes 4-byte-aligned offsets below `min 512 (len − 4)`); (ii) a buffer of
adequate size containing the signature nowhere is rejected with no events;
(iii) a file whose valid log content (signature at its offset 0) is
shifted 16 bytes into the buffer parses to exactly the same events as the
unshifted file — the scan finds the signature at offset 16, re-slices, and
decodes all well-formed records after it. -/
theorem C6_evt_signature_scan :
    (∀ (data : Bytes) (fuel i j : Nat), findEvtSig data fuel i = some j →
      i ≤ j ∧ j < 512 ∧ evtSigOk (pyslice data j (j + 4)) = true) ∧
    (∀ data : Bytes, 48 ≤ data.length →
      (∀ j, evtSigOk (pyslice data j (j + 4)) = false) →
      parse_evt_file (some data) = []) ∧
    (∀ data : Bytes, evtSigOk (pyslice data 0 4) = true → 48 ≤ data.length →
      parse_evt_file (some (List.replicate 16 0 ++ data)) = parse_evt_file (some data)) := by
  refine ⟨fun data fuel i j h => findEvtSig_sound data fuel i j h, ?_, ?_⟩
  · intro data h48 hno
    have hne : data.isEmpty = false := by
      cases data with
      | nil => simp at h48
      | cons b bs => rfl
    rw [parse_evt_file_some, hne]
    simp only [Bool.false_eq_true, if_false]
    rw [if_neg (by omega)]
    have h0 : evtSigOk (pyslice data 0 4) = false := by
      have := hno 0
      simpa using this
    rw [h0]
    simp only [Bool.false_eq_true, if_false]
    rw [findEvtSig_none data hno 129 0]
  · intro data hsig h48
    have hne : data.isEmpty = false := by
      cases data with
      | nil => simp at h48
      | cons b bs => rfl
    have hpadlen : (List.replicate 16 (0 : Nat) ++ data).length = 16 + data.length := by
      rw [List.length_append, List.length_replicate]
    have hpne : (List.replicate 16 (0 : Nat) ++ data).isEmpty = false := rfl
    -- the padded buffer's first four bytes are zero, not a signature
    have hp0 : evtSigOk (pyslice (List.replicate 16 (0 : Nat) ++ data) 0 4) = false := by
      have h := pyslice_replicate_zero_head data 0 4 (by omega)
      simp only [Nat.zero_add] at h
      rw [h]
      exact evtSigOk_replicate_zero 4
    have hstop : ∀ i : Nat, i ≤ 16 →
        i < min 512 ((List.replicate 16 (0 : Nat) ++ data).length - 4) := by
      intro i hi
      rw [hpadlen]
      refine lt_min_iff.mpr ⟨by omega, by omega⟩
    have hzero : ∀ i k, i + k ≤ 16 →
        evtSigOk (pyslice (List.replicate 16 (0 : Nat) ++ data) i (i + k)) = false := by
      intro i k hik
      rw [pyslice_replicate_zero_head data i k hik]
      exact evtSigOk_replicate_zero k
    have hat16 : pyslice (List.replicate 16 (0 : Nat) ++ data) 16 20 = pyslice data 0 4 := by
      unfold pyslice
      have h1 : List.take 20 (List.replicate 16 (0 : Nat) ++ data) =
          List.replicate 16 0 ++ List.take 4 data := by
        rw [List.take_append_eq_append_take, List.take_replicate, List.length_replicate]
        norm_num
      rw [h1, drop_append_len _ _ 16 (by simp), List.drop_zero]
    have hfind : findEvtSig (List.replicate 16 (0 : Nat) ++ data) 129 0 = some 16 := by
      rw [show (129 : Nat) = 128 + 1 from rfl, findEvtSig_succ,
        if_pos (hstop 0 (by omega)), hzero 0 4 (by omega)]
      simp only [Bool.false_eq_true, if_false]
      rw [show (0 + 4 : Nat) = 4 from rfl, show (128 : Nat) = 127 + 1 from rfl,
        findEvtSig_succ, if_pos (hstop 4 (by omega)), hzero 4 4 (by omega)]
      simp only [Bool.false_eq_true, if_false]
      rw [show (4 + 4 : Nat) = 8 from rfl, show (127 : Nat) = 126 + 1 from rfl,
        findEvtSig_succ, if_pos (hstop 8 (by omega)), hzero 8 4 (by omega)]
      simp only [Bool.false_eq_true, if_false]
      rw [show (8 + 4 : Nat) = 12 from rfl, show (126 : Nat) = 125 + 1 from rfl,
        findEvtSig_succ, if_pos (hstop 12 (by omega)), hzero 12 4 (by omega)]
      simp only [Bool.false_eq_true, if_false]
      rw [show (12 + 4 : Nat) = 16 from rfl, show (125 : Nat) = 124 + 1 from rfl,
        findEvtSig_succ, if_pos (hstop 16 (by omega)), show (16 + 4 : Nat) = 20 from rfl,
        hat16, hsig]
      rfl
    have hdrop : (List.replicate 16 (0 : Nat) ++ data).drop 16 = data :=
      drop_append_len _ _ 16 (by simp)
    have hL : parse_evt_file (some (List.replicate 16 (0 : Nat) ++ data)) =
        (match unpackLE 4 data 4, unpackLE 4 data 16, unpackLE 4 data 20 with
         | some header_size, some _, some _ => evtLoop data data.length header_size
         | _, _, _ => []) := by
      rw [parse_evt_file_some, hpne]
      simp only [Bool.false_eq_true, if_false]
      rw [if_neg (show ¬((List.replicate 16 (0 : Nat) ++ data).length < 48) by
        rw [hpadlen]; omega)]
      rw [hp0]
      simp only [Bool.false_eq_true, if_false]
      rw [hfind]
      simp only [hdrop]
    have hR : parse_evt_file (some data) =
        (match unpackLE 4 data 4, unpackLE 4 data 16, unpackLE 4 data 20 with
         | some header_size, some _, some _ => evtLoop data data.length header_size
         | _, _, _ => []) := by
      rw [parse_evt_file_some, hne]
      simp only [Bool.false_eq_true, if_false]
      rw [if_neg (show ¬(data.length < 48) by omega), hsig]
      simp
    rw [hL, hR]

/-- Witness for C6: the concrete synthetic log parses identically when
shifted 16 bytes; an all-zero buffer is rejected; the scan on the shifted
buffer reports offset 16, inside the 512-byte bound. -/
theorem C6_evt_signature_scan_witness :
    parse_evt_file (some (List.replicate 16 0 ++ evtSample)) = parse_evt_file (some evtSample) ∧
    parse_evt_file (some (List.replicate 48 0)) = [] ∧
    (0 ≤ 16 ∧ 16 < 512 ∧
      evtSigOk (pyslice (List.replicate 16 0 ++ evtSample) 16 (16 + 4)) = true) := by
  refine ⟨C6_evt_signature_scan.2.2 evtSample (by decide) (by decide), ?_, ?_⟩
  · refine C6_evt_signature_scan.2.1 (List.replicate 48 0) (by simp) ?_
    intro j
    have h : pyslice (List.replicate 48 (0 : Nat)) j (j + 4) =
        List.replicate (min (j + 4) 48 - j) 0 := by
      unfold pyslice
      rw [List.take_replicate, List.drop_replicate]
    rw [h]
    exact evtSigOk_replicate_zero _
  · exact C6_evt_signature_scan.1 (List.replicate 16 0 ++ evtSample) 129 0 16 (by decide)

theorem unpackLE_of_le (w : Nat) (d : Bytes) (off : Nat) (h : off + w ≤ d.length) :
    unpackLE w d off = some (leNat (pyslice d off (off + w))) := by
  unfold unpackLE
  rw [if_pos h]

theorem v1ATimes_length_le (pf : Bytes) (l : List Nat) :
    (v1ATimes pf l).length ≤ l.length := by
  induction l with
  | nil => simp [v1ATimes]
  | cons i rest ih =>
    simp only [v1ATimes, List.length_append, List.length_cons]
    have h1 : (if 128 + i * 8 + 8 ≤ pf.length then
        if leNat (pyslice pf (128 + i * 8) (128 + i * 8 + 8)) > 0 then
          match filetimeConvGuarded (leNat (pyslice pf (128 + i * 8) (128 + i * 8 + 8))) with
          | some dt => [pyIsoformat dt]
          | none => []
        else []
      else ([] : List String)).length ≤ 1 := by
      split
      · split
        · split <;> simp
        · simp
      · simp
    omega

/-- **C4** (confirmed).  `_parse_prefetch_file` dispatch: undersized input
or an unrecognized signature yields no record; under the `MAM\x04`
signature the version dword at offset 4 selects the layout — 0x17 yields
the XP record (executable name via the offset/length pair at 16/20 into a
UTF-16LE region, run count at 144, one FILETIME at 120), 0x1A/0x1E/0x1F
all yield the Vista/7 record (run count at 152, at most eight FILETIME
slots from 128), and every other version yields no record.  Under the
`SCCA` signature the version is read from offset 0 — i.e. from the
signature bytes themselves — so it never matches a known version and no
record is produced: no `SCCA` input is a valid version-0x17 (or any other)
file under this parser's own version read. -/
theorem C4_prefetch_dispatch :
    (∀ (pf : Bytes) (fn : String), pf.length < 84 → parse_prefetch_file pf fn = none) ∧
    (∀ (pf : Bytes) (fn : String), pyslice pf 0 4 ≠ sccaSig → pyslice pf 0 4 ≠ mamSig →
      parse_prefetch_file pf fn = none) ∧
    (∀ (pf : Bytes) (fn : String), 84 ≤ pf.length → pyslice pf 0 4 = sccaSig →
      parse_prefetch_file pf fn = none) ∧
    (∀ (pf : Bytes) (fn : String), 84 ≤ pf.length → pyslice pf 0 4 = mamSig →
      leNat (pyslice pf 4 8) ∉ ([0x17, 0x1A, 0x1E, 0x1F] : List Nat) →
      parse_prefetch_file pf fn = none) ∧
    (∀ (pf : Bytes) (fn : String) (o : Option PyDatetime),
      148 ≤ pf.length → pyslice pf 0 4 = mamSig →
      leNat (pyslice pf 4 8) = 0x17 →
      leNat (pyslice pf 16 20) < pf.length →
      filetimeConv (leNat (pyslice pf 120 128)) = .ok o →
      parse_prefetch_file pf fn = some
        [("filename", PV.s fn),
         ("executable_name", PV.s (rstripNulls (decodeUtf16leIgnore
           (pyslice pf (leNat (pyslice pf 16 20))
             (leNat (pyslice pf 16 20) + leNat (pyslice pf 20 24)))))),
         ("run_count", PV.n (leNat (pyslice pf 144 148))),
         ("last_run_time", optIso o),
         ("version", PV.s "XP/2003"),
         ("prefetch_hash", PV.s (if strContains fn "-" then
           strRemoveAll (splitLast fn '-') ".pf" else ""))]) ∧
    (∀ (pf : Bytes) (fn : String) (v : Nat),
      156 ≤ pf.length → pyslice pf 0 4 = mamSig →
      leNat (pyslice pf 4 8) = v → (v = 0x1A ∨ v = 0x1E ∨ v = 0x1F) →
      leNat (pyslice pf 16 20) < pf.length →
      parse_prefetch_file pf fn = some
        [("filename", PV.s fn),
         ("executable_name", PV.s (rstripNulls (decodeUtf16leIgnore
           (pyslice pf (leNat (pyslice pf 16 20))
             (leNat (pyslice pf 16 20) + leNat (pyslice pf 20 24)))))),
         ("run_count", PV.n (leNat (pyslice pf 152 156))),
         ("last_run_times", PV.list ((v1ATimes pf (List.range 8)).map PV.s)),
         ("last_run_time", match (v1ATimes pf (List.range 8)).head? with
           | some x => PV.s x
           | none => PV.null),
         ("version", PV.s "Vista/7"),
         ("prefetch_hash", PV.s (if strContains fn "-" then
           strRemoveAll (splitLast fn '-') ".pf" else ""))] ∧
      (v1ATimes pf (List.range 8)).length ≤ 8) := by
  refine ⟨?_, ?_, ?_, ?_, ?_, ?_⟩
  · intro pf fn h
    unfold parse_prefetch_file
    rw [if_pos h]
  · intro pf fn h1 h2
    unfold parse_prefetch_file
    split
    · rfl
    · rw [if_pos]
      simp only [Bool.not_eq_true', Bool.or_eq_false_iff, beq_eq_false_iff_ne]
      exact ⟨h1, h2⟩
  · intro pf fn hlen hsig
    unfold parse_prefetch_file
    rw [if_neg (by omega), hsig]
    norm_num [sccaSig, leNat]
  · intro pf fn hlen hsig hv
    simp only [List.mem_cons, List.mem_singleton, not_or] at hv
    unfold parse_prefetch_file
    rw [if_neg (by omega), hsig]
    have hne : (mamSig == sccaSig) = false := by decide
    simp only [hne, beq_self_eq_true, Bool.or_true, Bool.not_true, Bool.false_eq_true,
      if_false, Bool.false_eq_true]
    rw [if_neg hv.1, if_neg hv.2.1, if_neg hv.2.2.1, if_neg hv.2.2.2.1]
  · intro pf fn o hlen hsig hver heoff hconv
    unfold parse_prefetch_file
    rw [if_neg (by omega), hsig]
    have hne : (mamSig == sccaSig) = false := by decide
    simp only [hne, beq_self_eq_true, Bool.or_true, Bool.not_true, Bool.false_eq_true,
      if_false]
    rw [if_pos hver]
    simp only [parse_prefetch_v17]
    rw [if_pos heoff]
    simp only [unpackLE_of_le 4 pf 144 (by omega), unpackLE_of_le 8 pf 120 (by omega)]
    norm_num [hconv]
  · intro pf fn v hlen hsig hver hv heoff
    subst hver
    constructor
    · unfold parse_prefetch_file
      rw [if_neg (by omega), hsig]
      have hne : (mamSig == sccaSig) = false := by decide
      simp only [hne, beq_self_eq_true, Bool.or_true, Bool.not_true, Bool.false_eq_true,
        if_false]
      have hbody : parse_prefetch_v1A pf fn = some
          [("filename", PV.s fn),
           ("executable_name", PV.s (rstripNulls (decodeUtf16leIgnore
             (pyslice pf (leNat (pyslice pf 16 20))
               (leNat (pyslice pf 16 20) + leNat (pyslice pf 20 24)))))),
           ("run_count", PV.n (leNat (pyslice pf 152 156))),
           ("last_run_times", PV.list ((v1ATimes pf (List.range 8)).map PV.s)),
           ("last_run_time", match (v1ATimes pf (List.range 8)).head? with
             | some x => PV.s x
             | none => PV.null),
           ("version", PV.s "Vista/7"),
           ("prefetch_hash", PV.s (if strContains fn "-" then
             strRemoveAll (splitLast fn '-') ".pf" else ""))] := by
        simp only [parse_prefetch_v1A]
        rw [if_pos heoff]
        simp only [unpackLE_of_le 4 pf 152 (by omega)]
      rcases hv with hv | hv | hv <;> rw [hv] <;> norm_num <;> exact hbody
    · have h := v1ATimes_length_le pf (List.range 8)
      simpa using h

/-- Witness for C4: the concrete v17 and v1A samples produce records, and
undersized input produces none, with every hypothesis discharged
concretely. -/
theorem C4_prefetch_dispatch_witness :
    (parse_prefetch_file pfV17Sample "CA.EXE-123.pf").isSome = true ∧
    (parse_prefetch_file pfV1ASample "CA.EXE-123.pf").isSome = true ∧
    parse_prefetch_file [1, 2, 3] "x.pf" = none := by
  refine ⟨?_, ?_, C4_prefetch_dispatch.1 [1, 2, 3] "x.pf" (by decide)⟩
  · rw [C4_prefetch_dispatch.2.2.2.2.1 pfV17Sample "CA.EXE-123.pf" (some ⟨1000, 0⟩)
      (by decide) (by decide) (by decide) (by decide) (by rfl)]
    rfl
  · rw [(C4_prefetch_dispatch.2.2.2.2.2 pfV1ASample "CA.EXE-123.pf" 0x1A (by decide)
      (by decide) (by decide) (by norm_num) (by decide)).1]
    rfl

/-- **C7** (corrected).  `_parse_link_file`: (i) no successful parse ever
emits a `name` or `relative_path` key — the two strings are parsed into
locals the record never includes, so the claim's "empty name and relative
path" is wrong about those two fields; (ii) with header flags exactly
`HasArguments` (0x20), the record carries empty target/working-directory/
icon-location strings and the arguments produced by the string-data parse
at offset 76; (iii) that parse returns exactly the length-prefixed
UTF-16LE string when it fits.  Each of the five flag-gated fields is
parsed by its own independent flag test. -/
theorem C7_lnk_arguments_only :
    (∀ (lnk : Bytes) (fn : String) (rec0 : Dict), parse_link_file lnk fn = some rec0 →
      dictGet rec0 "name" = none ∧ dictGet rec0 "relative_path" = none) ∧
    (∀ (lnk : Bytes) (fn : String), 76 ≤ lnk.length → pyslice lnk 0 4 = [76, 0, 0, 0] →
      leNat (pyslice lnk 20 24) = 32 →
      parse_link_file lnk fn = some
        [("filename", PV.s fn),
         ("target_path", PV.s ""),
         ("arguments", PV.s (parse_string_data lnk 76).1),
         ("working_directory", PV.s ""),
         ("icon_location", PV.s ""),
         ("creation_time", optIso (filetimeConvGuarded (leNat (pyslice lnk 28 36)))),
         ("access_time", optIso (filetimeConvGuarded (leNat (pyslice lnk 36 44)))),
         ("write_time", optIso (filetimeConvGuarded (leNat (pyslice lnk 44 52)))),
         ("file_size", PV.n (leNat (pyslice lnk 52 56))),
         ("file_attributes", PV.n (leNat (pyslice lnk 24 28))),
         ("icon_index", PV.n (leNat (pyslice lnk 56 60))),
         ("show_command", PV.n (leNat (pyslice lnk 60 64))),
         ("link_flags", PV.n 32)]) ∧
    (∀ (lnk : Bytes) (L : Nat), leNat (pyslice lnk 76 78) = L → 78 + 2 * L ≤ lnk.length →
      (parse_string_data lnk 76).1 = decodeUtf16leIgnore (pyslice lnk 78 (78 + 2 * L))) := by
  refine ⟨?_, ?_, ?_⟩
  · intro lnk fn rec0 h
    unfold parse_link_file at h
    split at h
    · cases h
    · split at h
      · cases h
      · simp only [Option.some.injEq] at h
        subst h
        exact ⟨rfl, rfl⟩
  · intro lnk fn hlen hsig hflags
    simp only [parse_link_file]
    rw [if_neg (by omega), hsig]
    simp only [beq_self_eq_true, Bool.not_true, Bool.false_eq_true, if_false]
    rw [hflags]
    rw [if_neg (show ¬((32 : Nat) &&& 1 ≠ 0) by decide),
      if_neg (show ¬((32 : Nat) &&& 2 ≠ 0) by decide),
      if_neg (show ¬((32 : Nat) &&& 4 ≠ 0) by decide),
      if_neg (show ¬((32 : Nat) &&& 8 ≠ 0) by decide),
      if_neg (show ¬((32 : Nat) &&& 16 ≠ 0) by decide),
      if_pos (show ((32 : Nat) &&& 32 ≠ 0) by decide),
      if_neg (show ¬((32 : Nat) &&& 64 ≠ 0) by decide)]
    rfl
  · intro lnk L hL hle
    unfold parse_string_data
    rw [if_neg (by omega)]
    have h78 : (76 : Nat) + 2 = 78 := rfl
    rw [h78, hL, if_neg (by omega)]
    have hmul : L * 2 = 2 * L := Nat.mul_comm L 2
    rw [hmul]

/-- Witness for C7: the concrete arguments-only sample parses, and its
string-data parse yields the declared 2-character UTF-16LE payload. -/
theorem C7_lnk_arguments_only_witness :
    parse_link_file lnkOnlyArgs "n.lnk" ≠ none ∧
    (parse_string_data lnkOnlyArgs 76).1 =
      decodeUtf16leIgnore (pyslice lnkOnlyArgs 78 (78 + 2 * 2)) ∧
    dictGet ((parse_link_file lnkOnlyArgs "n.lnk").getD []) "name" = none := by
  refine ⟨?_, C7_lnk_arguments_only.2.2 lnkOnlyArgs 2 (by decide) (by decide), ?_⟩
  · rw [C7_lnk_arguments_only.2.1 lnkOnlyArgs "n.lnk" (by decide) (by decide) (by decide)]
    simp
  · have h := C7_lnk_arguments_only.2.1 lnkOnlyArgs "n.lnk" (by decide) (by decide) (by decide)
    exact (C7_lnk_arguments_only.1 lnkOnlyArgs "n.lnk" _ h).1

/-- **C7** counterexample: for the arguments-only sample the record is
emitted with a non-empty `arguments` value but carries *no* `name` or
`relative_path` key at all — the claim's "record with an empty name and
relative path" is false (the fields are absent, not empty). -/
theorem C7_missing_name_key_counterexample :
    (parse_link_file lnkOnlyArgs "x.lnk").isSome = true ∧
    dictGet ((parse_link_file lnkOnlyArgs "x.lnk").getD []) "name" = none ∧
    dictGet ((parse_link_file lnkOnlyArgs "x.lnk").getD []) "relative_path" = none ∧
    dictGet ((parse_link_file lnkOnlyArgs "x.lnk").getD []) "arguments" = some (PV.s "ab") ∧
    dictGet ((parse_link_file lnkOnlyArgs "x.lnk").getD []) "working_directory" =
      some (PV.s "") := by
  exact ⟨rfl, rfl, rfl, rfl, rfl⟩

/-- Every record `_parse_vista_info_file` returns: its fixed key set
(which does not include `data_file_path`). -/
theorem parse_vista_info_keys (info_data : Bytes) (ident : String) (rec0 : Dict)
    (h : parse_vista_info_file info_data ident = some rec0) :
    dictGet rec0 "data_file_path" = none ∧
    dictGet rec0 "info_filename" = some (PV.s (String.mk ('$' :: 'I' :: ident.data))) := by
  unfold parse_vista_info_file at h
  split at h
  · cases h
  · simp only [Option.some.injEq] at h
    subst h
    exact ⟨rfl, rfl⟩

/-- **C8** (corrected).  `parse_recycle_bin_vista_plus`: a grouped `$I`
entry with no matching `$R` entry still yields its record (it is emitted),
but the record carries *no* `data_file_path` key — the field is omitted,
not set to an explicit null. -/
theorem C8_orphan_metadata_record (fs : FS) (recycle_path : String)
    (kv : String × RBPair) (infoE : DirEntry) (bs : Bytes) (rec0 : Dict)
    (hmem : kv ∈ rbGroup (listDir fs recycle_path) [])
    (hinfo : kv.2.info = some infoE)
    (hdata : kv.2.dataFile = none)
    (hread : readFileBytes fs (pathJoin recycle_path infoE.name) = some bs)
    (hne : bs.isEmpty = false)
    (hparse : parse_vista_info_file bs kv.1 = some rec0) :
    rec0 ∈ parse_recycle_bin_vista_plus fs recycle_path ∧
    dictGet rec0 "data_file_path" = none := by
  constructor
  · unfold parse_recycle_bin_vista_plus
    refine List.mem_filterMap.mpr ⟨kv, hmem, ?_⟩
    rw [hinfo]
    simp only [hread, hne, Bool.false_eq_true, if_false, hparse, hdata]
  · exact (parse_vista_info_keys bs kv.1 rec0 hparse).1

/-- Witness for C8: in the concrete orphaned-`$I` directory the record is
emitted and lacks the `data_file_path` key. -/
theorem C8_orphan_metadata_record_witness :
    (parse_vista_info_file vistaInfoSample "1234").getD [] ∈
      parse_recycle_bin_vista_plus fsOrphanI "/bin" ∧
    dictGet ((parse_vista_info_file vistaInfoSample "1234").getD []) "data_file_path" =
      none := by
  exact C8_orphan_metadata_record fsOrphanI "/bin"
    ("1234", ⟨some ⟨"$I1234", true, 24, 0, 0, 0⟩, none⟩) ⟨"$I1234", true, 24, 0, 0, 0⟩
    vistaInfoSample ((parse_vista_info_file vistaInfoSample "1234").getD [])
    (by decide) rfl rfl rfl rfl (by rfl)

/-- **C8** counterexample: in the concrete directory holding only
`$I1234`, the record is emitted (one record) but looking up
`data_file_path` yields nothing at all — not an explicit null as the
claim states. -/
theorem C8_orphan_metadata_counterexample :
    (parse_recycle_bin_vista_plus fsOrphanI "/bin").length = 1 ∧
    dictGet ((parse_recycle_bin_vista_plus fsOrphanI "/bin").getD 0 [])
      "data_file_path" = none ∧
    dictGet ((parse_recycle_bin_vista_plus fsOrphanI "/bin").getD 0 [])
      "original_filename" = some (PV.s "f") := by
  exact ⟨rfl, rfl, rfl⟩

/-- **C9** (confirmed).  Declared sizes larger than the remaining input
are rejected and the record skipped, never used to read further: (i) an
event record whose declared length reaches past the end of the buffer is
skipped with the scan resuming 8 bytes on; (ii) a LNK string whose
declared character count reaches past the end decodes to the empty string
(only the 2-byte count is consumed); (iii) an index.dat URL record whose
declared size exceeds the remaining bytes is skipped with the scan
resuming 4 bytes on.  All reads are slices clamped to the buffer. -/
theorem C9_declared_size_bounds :
    (∀ (data : Bytes) (fuel offset rl : Nat),
      offset < data.length - 8 →
      pyslice data offset (offset + 4) = lfleSig →
      unpackLE 4 data (offset + 4) = some rl →
      56 ≤ rl → data.length < offset + rl →
      evtLoop data (fuel + 1) offset = evtLoop data fuel (offset + 8)) ∧
    (∀ (lnk : Bytes) (off L : Nat),
      off + 2 ≤ lnk.length → leNat (pyslice lnk off (off + 2)) = L →
      lnk.length < off + 2 + L * 2 →
      parse_string_data lnk off = ("", off + 2)) ∧
    (∀ (data : Bytes) (fuel offset rs : Nat),
      offset < data.length - 64 →
      pyslice data offset (offset + 4) = urlSig →
      leNat (pyslice data (offset + 4) (offset + 8)) = rs →
      data.length - offset < rs →
      indexDatLoop data (fuel + 1) offset = indexDatLoop data fuel (offset + 4)) := by
  refine ⟨?_, ?_, ?_⟩
  · intro data fuel offset rl h1 hsig hunp h56 hover
    simp only [evtLoop]
    rw [if_pos h1, hsig]
    simp only [beq_self_eq_true, if_true, hunp]
    have hc : (decide (rl < 56) || decide (offset + rl > data.length)) = true := by
      have h : offset + rl > data.length := by omega
      simp [h]
    simp only [hc, if_true]
  · intro lnk off L hle hL hover
    unfold parse_string_data
    rw [if_neg (by omega), hL, if_pos (by omega)]
  · intro data fuel offset rs h1 hsig hrs hover
    simp only [indexDatLoop]
    rw [if_pos h1, hsig]
    simp only [beq_self_eq_true, if_true, hrs]
    have hc : (decide (rs < 64) || decide (rs > data.length - offset) ||
        decide (rs > 8192)) = true := by
      have h : rs > data.length - offset := by omega
      simp [h]
    simp only [hc, if_true]

/-- Witness for C9: concrete oversized-declaration buffers for all three
parsers, each hypothesis discharged by evaluation. -/
theorem C9_declared_size_bounds_witness :
    evtLoop evtOversized 29 0 = evtLoop evtOversized 28 8 ∧
    parse_string_data lnkShortString 10 = ("", 12) ∧
    indexDatLoop ieOversized 81 0 = indexDatLoop ieOversized 80 4 := by
  refine ⟨?_, ?_, ?_⟩
  · exact C9_declared_size_bounds.1 evtOversized 28 0 100 (by decide) (by decide)
      (by decide) (by decide) (by decide)
  · exact C9_declared_size_bounds.2.1 lnkShortString 10 100 (by decide) (by decide)
      (by decide)
  · exact C9_declared_size_bounds.2.2 ieOversized 80 0 200 (by decide) (by decide)
      (by decide) (by decide)

theorem optIso_isTimestampValue (o : Option PyDatetime) : isTimestampValue (optIso o) := by
  cases o with
  | none => exact Or.inl rfl
  | some dt => exact Or.inr ⟨pyIsoformat dt, rfl, isoformat_isIso dt⟩

theorem info2Loop_mem (data : Bytes) (fuel : Nat) :
    ∀ offset rec0, rec0 ∈ info2Loop data fuel offset → ∃ r, rec0 = info2Record r := by
  induction fuel with
  | zero => intro offset rec0 h; simp [info2Loop] at h
  | succ f ih =>
    intro offset rec0 h
    simp only [info2Loop] at h
    split at h
    · rcases List.mem_cons.mp h with h' | h'
      · exact ⟨_, h'⟩
      · exact ih _ _ h'
    · simp at h

theorem info2Record_deletion_time (r : Bytes) :
    dictGet (info2Record r) "deletion_time" =
      some (optIso (filetimeConvGuarded (leNat (pyslice r 528 536)))) := rfl

theorem parse_vista_info_deletion_time (info_data : Bytes) (ident : String) (rec0 : Dict)
    (h : parse_vista_info_file info_data ident = some rec0) :
    dictGet rec0 "deletion_time" =
      some (optIso (filetimeConvGuarded (leNat (pyslice info_data 8 16)))) := by
  unfold parse_vista_info_file at h
  split at h
  · cases h
  · simp only [Option.some.injEq] at h
    subst h
    rfl

/-- **C2** (corrected).  The FILETIME- and `time_t`-derived timestamp
fields of the claim's source parsers are always a valid ISO-8601 instant
string or explicitly null: the `deletion_time` of every INFO2 record and
of every `$I` record, and the `time_generated`/`time_written` of every
event record.  (The claim fails for installed-program records, whose
`install_date` is passed through verbatim: see the counterexample.) -/
theorem C2_timestamp_fields :
    (∀ (raw : Option Bytes) (rec0 : Dict), rec0 ∈ parse_info2_file raw →
      ∃ v, dictGet rec0 "deletion_time" = some v ∧ isTimestampValue v) ∧
    (∀ (info_data : Bytes) (ident : String) (rec0 : Dict),
      parse_vista_info_file info_data ident = some rec0 →
      ∃ v, dictGet rec0 "deletion_time" = some v ∧ isTimestampValue v) ∧
    (∀ (rd : Bytes) (ev : Dict), parse_evt_record rd = some ev →
      (∃ v, dictGet ev "time_generated" = some v ∧ isTimestampValue v) ∧
      (∃ v, dictGet ev "time_written" = some v ∧ isTimestampValue v)) := by
  refine ⟨?_, ?_, ?_⟩
  · intro raw rec0 h
    have hmem : ∃ r, rec0 = info2Record r := by
      cases raw with
      | none => simp [parse_info2_file] at h
      | some data =>
        rw [parse_info2_file_some] at h
        split at h
        · simp at h
        · split at h
          · simp at h
          · exact info2Loop_mem data data.length 20 rec0 h
    rcases hmem with ⟨r, hr⟩
    subst hr
    exact ⟨_, info2Record_deletion_time r, optIso_isTimestampValue _⟩
  · intro info_data ident rec0 h
    exact ⟨_, parse_vista_info_deletion_time info_data ident rec0 h,
      optIso_isTimestampValue _⟩
  · intro rd ev h
    simp only [parse_evt_record] at h
    split at h
    · cases h
    · split at h
      · simp only [Option.some.injEq] at h
        subst h
        exact ⟨⟨_, rfl, optIso_isTimestampValue _⟩, ⟨_, rfl, optIso_isTimestampValue _⟩⟩
      · cases h

/-- Witness for C2: the concrete INFO2 record and the concrete event
record both satisfy the ISO-or-null property via the theorem. -/
theorem C2_timestamp_fields_witness :
    (∃ v, dictGet (info2Record info2SampleRecord) "deletion_time" = some v ∧
      isTimestampValue v) ∧
    (∃ v, dictGet ((parse_evt_record evtRecordSample).getD []) "time_generated" = some v ∧
      isTimestampValue v) := by
  constructor
  · refine C2_timestamp_fields.1
      (some (List.replicate 20 0 ++ info2SampleRecord)) (info2Record info2SampleRecord) ?_
    rw [show parse_info2_file (some (List.replicate 20 0 ++ info2SampleRecord)) =
      [info2Record info2SampleRecord] from rfl]
    exact List.mem_singleton.mpr rfl
  · exact (C2_timestamp_fields.2.2 evtRecordSample
      ((parse_evt_record evtRecordSample).getD []) (by rfl)).1

/-- **C2** counterexample: an installed-program record emitted for a
registry entry with `InstallDate = "20200315"` carries the raw registry
date string (under the collapsed key `installdate`) and an empty string
(not null, not ISO-8601) under the pre-initialized `install_date` key. -/
theorem C2_install_date_counterexample :
    (extract_installed_programs fsInstallDate "/sw").length = 1 ∧
    dictGet ((extract_installed_programs fsInstallDate "/sw").getD 0 []) "install_date" =
      some (PV.s "") ∧
    dictGet ((extract_installed_programs fsInstallDate "/sw").getD 0 []) "installdate" =
      some (PV.s "20200315") ∧
    isIso8601Instant "" = false ∧
    isIso8601Instant "20200315" = false ∧
    PV.s "" ≠ PV.null ∧
    PV.s "20200315" ≠ PV.null := by
  refine ⟨rfl, rfl, rfl, rfl, rfl, by simp, by simp⟩

/-- **C10** (confirmed).  Every per-category top-level extractor returns a
dict with its full fixed key set on *every* input (including mid-category
exceptions, which leave the pre-initialized keys in place), and on the
empty filesystem each returns its canonical all-empty shape — artifact
absence never removes a key. -/
theorem C10_category_result_shapes :
    (∀ fs : FS, dictKeys (extract_all_recycle_bin_artifacts fs) =
      ["locations", "deleted_files", "summary"]) ∧
    (∀ fs : FS, dictKeys (extract_all_event_log_artifacts fs) =
      ["log_files", "all_events", "logon_events", "system_events", "summary"]) ∧
    (∀ fs : FS, dictKeys (extract_all_filesystem_artifacts fs) =
      ["prefetch_files", "link_files", "jump_lists", "usn_journal", "summary"]) ∧
    (∀ (fs : FS) (profiles : List String),
      dictKeys (extract_all_browser_artifacts fs profiles) =
        ["firefox", "chrome_edge", "internet_explorer"] ∧
      (∃ kvs, dictGet (extract_all_browser_artifacts fs profiles) "firefox" =
        some (PV.dict kvs) ∧ dictKeys kvs = ["history", "cookies", "downloads"]) ∧
      (∃ kvs, dictGet (extract_all_browser_artifacts fs profiles) "chrome_edge" =
        some (PV.dict kvs) ∧ dictKeys kvs = ["history", "cookies", "downloads"]) ∧
      (∃ kvs, dictGet (extract_all_browser_artifacts fs profiles) "internet_explorer" =
        some (PV.dict kvs) ∧ dictKeys kvs = ["history", "cookies"])) ∧
    (extract_all_recycle_bin_artifacts emptyFS =
      [("locations", PV.list []), ("deleted_files", PV.list []),
       ("summary", PV.dict
         [("total_deleted_files", PV.n 0), ("total_size", PV.n 0),
          ("date_range", PV.dict [("earliest", PV.null), ("latest", PV.null)])])]) ∧
    (extract_all_event_log_artifacts emptyFS =
      [("log_files", PV.list []), ("all_events", PV.list []),
       ("logon_events", PV.list []), ("system_events", PV.list []),
       ("summary", PV.dict
         [("total_events", PV.n 0), ("total_logon_events", PV.n 0),
          ("total_system_events", PV.n 0),
          ("date_range", PV.dict [("earliest", PV.null), ("latest", PV.null)])])]) ∧
    (extract_all_filesystem_artifacts emptyFS =
      [("prefetch_files", PV.list []), ("link_files", PV.list []),
       ("jump_lists", PV.list []), ("usn_journal", PV.dict parse_usn_journal),
       ("summary", PV.dict
         [("total_prefetch", PV.n 0), ("total_links", PV.n 0),
          ("total_jump_lists", PV.n 0)])]) ∧
    (extract_all_browser_artifacts emptyFS [] =
      [("firefox", PV.dict
         [("history", PV.list []), ("cookies", PV.list []), ("downloads", PV.list [])]),
       ("chrome_edge", PV.dict
         [("history", PV.list []), ("cookies", PV.list []), ("downloads", PV.list [])]),
       ("internet_explorer", PV.dict
         [("history", PV.list []), ("cookies", PV.list [])])]) := by
  refine ⟨fun fs => rfl, fun fs => rfl, ?_, ?_, rfl, rfl, rfl, rfl⟩
  · intro fs
    unfold extract_all_filesystem_artifacts
    cases parse_prefetch_files fs with
    | error e => rfl
    | ok pf =>
      cases parse_link_files fs with
      | error e => rfl
      | ok lf => rfl
  · intro fs profiles
    exact ⟨rfl, ⟨_, rfl, rfl⟩, ⟨_, rfl, rfl⟩, ⟨_, rfl, rfl⟩⟩

theorem flatMap_nil_fun (l : List String) :
    (l.flatMap fun _ => ([] : List Dict)) = [] := by
  induction l <;> simp_all

theorem flatMap_eq_nil_of (l : List String) (f : String → List Dict)
    (h : ∀ x, f x = []) : l.flatMap f = [] := by
  induction l with
  | nil => rfl
  | cons a as ih => simp [h, ih]

theorem loadRegistryHive_none (fs : FS) (hcorrupt : ∀ b, fs.hiveParse b = none) :
    ∀ p, loadRegistryHive fs p = none := by
  intro p
  unfold loadRegistryHive
  cases readFileBytes fs p with
  | none => rfl
  | some raw =>
    by_cases hr : raw.isEmpty = true
    · simp [hr]
    · simp only [hr, Bool.false_eq_true, if_false]
      exact hcorrupt raw

/-- **C3** (corrected).  The orchestrator: (i) an image whose partition
table has no NTFS entry makes the whole run return `None` — no partial
document; (ii) likewise an image that does not open; (iii) when every
registry-hive load fails (all hive bytes corrupt or absent), the registry
category collapses to its all-empty shape; (iv) for every produced
document, each of the five category entries equals the standalone result
of that category's extractor over the same filesystem — no category's
failure state influences a sibling.  (The claim's stronger assertion that
a corrupted SYSTEM hive alone empties the whole registry category is
false: SOFTWARE/NTUSER-derived sub-artifacts still populate — see the
counterexample.) -/
theorem C3_orchestrator_failure_isolation :
    (∀ w : World, findNtfsPartition w.partitions = none → extract_all_artifacts w = none) ∧
    (∀ w : World, w.imageOk = false → extract_all_artifacts w = none) ∧
    (∀ (fs : FS) (sys sw : String) (ntps : List String),
      (∀ b, fs.hiveParse b = none) →
      extract_all_registry_artifacts fs sys sw ntps = emptyRegistryArtifacts) ∧
    (∀ (w : World) (doc : Dict), extract_all_artifacts w = some doc →
      dictGet doc "recycle_bin_artifacts" =
        some (PV.dict (extract_all_recycle_bin_artifacts w.fs)) ∧
      dictGet doc "event_log_artifacts" =
        some (PV.dict (extract_all_event_log_artifacts w.fs)) ∧
      dictGet doc "filesystem_artifacts" =
        some (PV.dict (extract_all_filesystem_artifacts w.fs)) ∧
      dictGet doc "browser_artifacts" =
        some (PV.dict (extract_all_browser_artifacts w.fs (discover_user_profiles w.fs))) ∧
      dictGet doc "registry_artifacts" = some (PV.dict (orchExtractRegistry w.fs))) := by
  refine ⟨?_, ?_, ?_, ?_⟩
  · intro w h
    unfold extract_all_artifacts
    split
    · rfl
    · rw [h]
  · intro w h
    unfold extract_all_artifacts
    rw [h]
    rfl
  · intro fs sys sw ntps hcorrupt
    have hload := loadRegistryHive_none fs hcorrupt
    have hua : ∀ x, extract_userassist fs x = [] := by
      intro x
      simp [extract_userassist, hload]
    unfold extract_all_registry_artifacts emptyRegistryArtifacts
    simp only [extract_usb_history, extract_userassist, extract_installed_programs,
      extract_run_keys, extract_last_logged_user, extract_timezone_info,
      extract_network_info, hload, flatMap_nil_fun, List.map_nil, List.nil_append]
    rw [flatMap_eq_nil_of ntps _ hua]
    rfl
  · intro w doc h
    unfold extract_all_artifacts at h
    split at h
    · cases h
    · split at h
      · cases h
      · simp only [Option.some.injEq] at h
        subst h
        exact ⟨rfl, rfl, rfl, rfl, rfl⟩

/-- Witness for C3: the no-NTFS world aborts with no document; the
all-corrupt filesystem's registry category is the empty shape; the
corrupted-SYSTEM world's document exists with siblings equal to their
standalone extractions. -/
theorem C3_orchestrator_failure_isolation_witness :
    extract_all_artifacts worldNoNtfs = none ∧
    extract_all_registry_artifacts emptyFS "/s" "/w" [] = emptyRegistryArtifacts ∧
    dictGet ((extract_all_artifacts worldCorruptSystem).getD [])
      "recycle_bin_artifacts" =
      some (PV.dict (extract_all_recycle_bin_artifacts worldCorruptSystem.fs)) := by
  refine ⟨C3_orchestrator_failure_isolation.1 worldNoNtfs rfl,
    C3_orchestrator_failure_isolation.2.2.1 emptyFS "/s" "/w" [] (fun b => rfl), ?_⟩
  exact (C3_orchestrator_failure_isolation.2.2.2 worldCorruptSystem
    ((extract_all_artifacts worldCorruptSystem).getD []) (by rfl)).1

/-- **C3** counterexample: with only the SYSTEM hive corrupted (its bytes
fail to load) and a loadable SOFTWARE hive holding one `Run` value, the
produced document's registry category is *not* empty — `run_keys` has one
entry — while the SYSTEM-derived `usb_history` is empty.  A corrupted
SYSTEM hive does not degrade the registry category to empty as the claim
states. -/
theorem C3_corrupt_system_counterexample :
    fsCorruptSystem.hiveParse [1] = none ∧
    (extract_all_artifacts worldCorruptSystem).isSome = true ∧
    nestedLen ((extract_all_artifacts worldCorruptSystem).getD [])
      "registry_artifacts" "run_keys" = 1 ∧
    nestedLen ((extract_all_artifacts worldCorruptSystem).getD [])
      "registry_artifacts" "usb_history" = 0 := by
  exact ⟨rfl, rfl, rfl, rfl⟩

end CF
